import Mathlib

/-!
Verification development for the driving-data analytics engine
(trip segmentation, efficiency trends, commute clustering, trip cost).

Shallow embedding conventions:
* JS numbers are modelled as exact rationals (`ℚ`); Unix timestamps (seconds)
  as `ℤ`; drive identifiers as `ℕ`.
* `Math.round` is modelled by `jsRound` (round half toward +infinity, the JS
  semantics), and the ubiquitous `Math.round(x * 100) / 100` by `round2`.
* Division by zero yields `0` in `ℚ` where JS would produce `Infinity`/`NaN`;
  every such spot is marked with a comment.  No verified property evaluates
  one of these degenerate cases.
* `Array.prototype.sort` with comparator `(a, b) => a.started_at - b.started_at`
  is a stable sort; it is modelled by `List.insertionSort` (stable, and any two
  stable sorts agree).  In-place mutation of the caller's array is modelled
  separately by explicit `...InputAfter` functions.
* JS string operations (`split`, `trim`, default lexicographic `sort`) are
  re-implemented over `List Char` so that they are kernel-computable; JS
  compares UTF-16 code units, which agrees with code-point order used here for
  all labels appearing in the analysis.
-/

/-- JS `Math.round`: round half toward positive infinity. -/
def jsRound (q : ℚ) : ℤ := ⌊q + 1/2⌋

/-- The idiom `Math.round(x * 100) / 100` (round to 2 decimal places). -/
def round2 (q : ℚ) : ℚ := ((jsRound (q * 100) : ℤ) : ℚ) / 100

/-- UTC day index of a Unix timestamp in seconds (floor division, as the
`toISOString` calendar date is determined by it; the source stores the date as
a `YYYY-MM-DD` string, which corresponds one-to-one to this index). -/
def epochDay (t : ℤ) : ℤ := Int.fdiv t 86400

/-- Model of `Math.max(...list)` for a nonempty list; the empty case (JS `-Infinity`)
is modelled as `0` and is never reached by the analyzers (groups are
nonempty). -/
def jsMaxList : List ℚ → ℚ
  | [] => 0
  | x :: xs => xs.foldl max x

/-- Model of `Math.min(...list)` for a nonempty list; the empty case (JS `Infinity`)
is modelled as `0`. -/
def jsMinList : List ℚ → ℚ
  | [] => 0
  | x :: xs => xs.foldl min x

/-- JS `String.prototype.split(sep)` for a one-character separator, over
char lists.  Empty segments are kept, `split` of the empty string yields one
empty segment, exactly as in JS. -/
def splitOnChar (sep : Char) : List Char → List (List Char)
  | [] => [[]]
  | c :: rest =>
    match splitOnChar sep rest, decide (c = sep) with
    | r, true => [] :: r
    | [], false => [[c]]
    | g :: gs, false => (c :: g) :: gs

/-- ASCII whitespace test used to model `String.prototype.trim` (the labels
handled by the analyzers only contain these whitespace characters). -/
def isWsChar (c : Char) : Bool := c = ' ' ∨ c = '\t' ∨ c = '\n' ∨ c = '\r'

/-- JS `String.prototype.trim` over char lists. -/
def trimChars (l : List Char) : List Char :=
  ((l.dropWhile isWsChar).reverse.dropWhile isWsChar).reverse

/-- Lexicographic order on char lists by code point; agrees with the JS
default sort comparator (UTF-16 code-unit order) on the analyzed labels. -/
def strLt : List Char → List Char → Bool
  | [], [] => false
  | [], _ :: _ => true
  | _ :: _, [] => false
  | a :: as, b :: bs =>
    if a.val < b.val then true else if b.val < a.val then false else strLt as bs

/-- A raw drive record (`TessieDrive`).  The defining interface lives in the
API-client module, which is external to the analytics core; fields are taken
from the data-model description (start/end Unix timestamps, start/end battery
percentage, odometer distance, start/end free-text location labels,
average/max speed) plus the numeric `id` used by the drive analyzer. -/
structure TessieDrive where
  id : ℕ
  started_at : ℤ
  ended_at : ℤ
  starting_location : String
  ending_location : String
  starting_battery : ℚ
  ending_battery : ℚ
  odometer_distance : ℚ
  average_speed : ℚ
  max_speed : ℚ
  deriving Repr, DecidableEq

/-- Placeholder drive used only as the (unreachable) default of `headD` /
`getLastD` on lists that are nonempty at every call site. -/
def defaultDrive : TessieDrive :=
  { id := 0, started_at := 0, ended_at := 0, starting_location := "",
    ending_location := "", starting_battery := 0, ending_battery := 0,
    odometer_distance := 0, average_speed := 0, max_speed := 0 }

instance : Inhabited TessieDrive := ⟨defaultDrive⟩

/-- Comparator used by every analyzer: `(a, b) => a.started_at - b.started_at`. -/
def driveLE (a b : TessieDrive) : Prop := a.started_at ≤ b.started_at

instance : DecidableRel driveLE := fun a b =>
  inferInstanceAs (Decidable (a.started_at ≤ b.started_at))

instance : IsTotal TessieDrive driveLE := ⟨fun a b => le_total a.started_at b.started_at⟩

instance : IsTrans TessieDrive driveLE := ⟨fun _ _ _ h h' => le_trans h h'⟩

/-- Model of `[...drives].sort((a, b) => a.started_at - b.started_at)`: a stable sort
by start time.  `List.insertionSort` is stable, so it produces the same list
as the (stable) JS sort. -/
def sortDrives (drives : List TessieDrive) : List TessieDrive :=
  List.insertionSort driveLE drives

-- ### Generic machinery for the grouping loop of `mergeDrives`
-- The loop walks the sorted list and starts a new group exactly at the
-- adjacent pairs rejected by the merge predicate; this is chunking of a list
-- by an adjacency relation.  Groups are represented as head-and-tail pairs so
-- that they are nonempty by construction.

/-- The member list of one nonempty group. -/
def grpList {α : Type} (g : α × List α) : List α := g.1 :: g.2

/-- Prepend one element to a chunk list: join the first group if the
adjacency relation accepts the pair, otherwise open a new group. -/
def chunkCons {α : Type} (R : α → α → Bool) (x : α) :
    List (α × List α) → List (α × List α)
  | [] => [(x, [])]
  | (e, g) :: gs => if R x e then (x, e :: g) :: gs else (x, []) :: (e, g) :: gs

/-- Chunk a list into maximal runs whose adjacent pairs satisfy `R`. -/
def chunkByAdj {α : Type} (R : α → α → Bool) (l : List α) : List (α × List α) :=
  l.foldr (chunkCons R) []

namespace DriveAnalyzer

/-- Classification of a stop recorded inside a merged drive. -/
inductive StopType where
  | short
  | charging
  | excluded
  deriving Repr, DecidableEq

/-- A stop between two member drives of a merged drive. -/
structure DriveStop where
  location : String
  duration_minutes : ℚ
  stop_type : StopType
  started_at : ℤ
  ended_at : ℤ
  deriving Repr, DecidableEq

/-- A journey assembled from one or more raw drives (`MergedDrive`). -/
structure MergedDrive where
  id : String
  originalDriveIds : List ℕ
  started_at : ℤ
  ended_at : ℤ
  starting_location : String
  ending_location : String
  starting_battery : ℚ
  ending_battery : ℚ
  total_distance : ℚ
  total_duration_minutes : ℚ
  driving_duration_minutes : ℚ
  stops : List DriveStop
  autopilot_distance : ℚ
  autopilot_percentage : ℚ
  energy_consumed : ℚ
  average_speed : ℚ
  max_speed : ℚ
  deriving Repr, DecidableEq

/-- Gap between two consecutive drives, in minutes:
`(currentDrive.started_at - prevDrive.ended_at) / 60`. -/
def gapMinutesQ (prevDrive currentDrive : TessieDrive) : ℚ :=
  ((currentDrive.started_at - prevDrive.ended_at : ℤ) : ℚ) / 60

/-- Source `shouldMergeDrives`: merge when the gap is under 7 minutes, or when the
battery level rose more than 5 percentage points across the gap. -/
def shouldMergeDrives (prevDrive currentDrive : TessieDrive) (gapMinutes : ℚ) : Bool :=
  if gapMinutes < 7 then true
  else if currentDrive.starting_battery - prevDrive.ending_battery > 5 then true
  else false

/-- The adjacency predicate driving the grouping loop of `mergeDrives`. -/
def mergeAdj (prevDrive currentDrive : TessieDrive) : Bool :=
  shouldMergeDrives prevDrive currentDrive (gapMinutesQ prevDrive currentDrive)

/-- Speed-consistency score (`calculateSpeedConsistency`): four-tier bucket of
the average-to-max speed ratio. -/
def calculateSpeedConsistency (drive : MergedDrive) : ℚ :=
  if drive.average_speed = 0 ∨ drive.max_speed = 0 then 0
  else
    let speedRatio := drive.average_speed / drive.max_speed
    if speedRatio > 85/100 then 1
    else if speedRatio > 75/100 then 8/10
    else if speedRatio > 65/100 then 6/10
    else if speedRatio > 55/100 then 4/10
    else 2/10

/-- Source `predictAutopilotUsage`: additive likelihood score, capped at 0.9,
multiplied into the total distance. -/
def predictAutopilotUsage (drive : MergedDrive) : ℚ :=
  if drive.total_distance < 5 then 0
  else
    let f1 : ℚ :=
      if drive.average_speed > 45 then 4/10
      else if drive.average_speed > 35 then 2/10 else 0
    let f2 : ℚ :=
      if drive.total_distance > 30 then 3/10
      else if drive.total_distance > 15 then 2/10
      else if drive.total_distance > 10 then 1/10 else 0
    let f3 : ℚ := calculateSpeedConsistency drive * (2/10)
    -- `total_distance / (driving_duration_minutes / 60)`: division by zero
    -- yields 0 here (JS: Infinity); the guard below also requires
    -- `driving_duration_minutes > 30`, so the outcomes agree.
    let avgDrivingSpeed := drive.total_distance / (drive.driving_duration_minutes / 60)
    let f4 : ℚ :=
      if avgDrivingSpeed > 50 ∧ drive.driving_duration_minutes > 30 then 1/10 else 0
    let autopilotLikelihood := min (f1 + f2 + f3 + f4) (9/10)
    round2 (drive.total_distance * autopilotLikelihood)

/-- Source `createMergedDrive` on a (nonempty) group of consecutive drives. -/
def createMergedDrive (g : TessieDrive × List TessieDrive) : MergedDrive :=
  let drives := grpList g
  let firstDrive := g.1
  let lastDrive := g.2.getLastD g.1
  let stops : List DriveStop :=
    (drives.zip drives.tail).filterMap (fun p =>
      let current := p.1
      let next := p.2
      let gapMinutes := gapMinutesQ current next
      if 0 < gapMinutes then
        let batteryChange := next.starting_battery - current.ending_battery
        some
          { location := current.ending_location,
            duration_minutes := round2 gapMinutes,
            stop_type :=
              if batteryChange > 5 then StopType.charging
              else if gapMinutes < 7 then StopType.short
              else StopType.excluded,
            started_at := current.ended_at,
            ended_at := next.started_at }
      else none)
  let totalDistance := (drives.map (·.odometer_distance)).sum
  let totalDuration := ((lastDrive.ended_at - firstDrive.started_at : ℤ) : ℚ) / 60
  let drivingDuration :=
    (drives.map (fun d => ((d.ended_at - d.started_at : ℤ) : ℚ) / 60)).sum
  -- `d.max_speed || 0` is the identity on exact rationals.
  let maxSpeed := jsMaxList (drives.map (·.max_speed))
  -- Division by zero yields 0 (JS: Infinity) when a group has positive
  -- distance but zero driving time; no verified property reaches this case.
  let averageSpeed :=
    if totalDistance > 0 then totalDistance / (drivingDuration / 60) else 0
  let base : MergedDrive :=
    { id := ("merged_") ++ String.intercalate ("_") (drives.map (fun d => toString d.id)),
      originalDriveIds := drives.map (·.id),
      started_at := firstDrive.started_at,
      ended_at := lastDrive.ended_at,
      starting_location := firstDrive.starting_location,
      ending_location := lastDrive.ending_location,
      starting_battery := firstDrive.starting_battery,
      ending_battery := lastDrive.ending_battery,
      total_distance := round2 totalDistance,
      total_duration_minutes := round2 totalDuration,
      driving_duration_minutes := round2 drivingDuration,
      stops := stops,
      autopilot_distance := 0,
      autopilot_percentage := 0,
      energy_consumed := firstDrive.starting_battery - lastDrive.ending_battery,
      average_speed := round2 averageSpeed,
      max_speed := round2 maxSpeed }
  let predictedAutopilotMiles := predictAutopilotUsage base
  { base with
    autopilot_distance := predictedAutopilotMiles,
    autopilot_percentage :=
      if totalDistance > 0 then
        ((jsRound (predictedAutopilotMiles / totalDistance * 10000) : ℤ) : ℚ) / 100
      else 0 }

/-- Source `mergeDrives`: sort by start time, group consecutive drives accepted by
`shouldMergeDrives`, and build one `MergedDrive` per group. -/
def mergeDrives (drives : List TessieDrive) : List MergedDrive :=
  if drives.isEmpty then []
  else ((chunkByAdj mergeAdj (sortDrives drives)).map createMergedDrive)

/-- The caller's array after `mergeDrives` returns: the source sorts a copy
(`[...drives].sort`), so the input array is untouched. -/
def mergeDrivesInputAfter (drives : List TessieDrive) : List TessieDrive := drives

end DriveAnalyzer

namespace EfficiencyAnalyzer

/-- Weather proxy tag inferred from consumption magnitude. -/
inductive WeatherFactor where
  | hot
  | cold
  | mild
  deriving Repr, DecidableEq

/-- Trend direction of an efficiency comparison. -/
inductive TrendDirection where
  | improving
  | declining
  | stable
  deriving Repr, DecidableEq

/-- Confidence level of a trend comparison. -/
inductive Confidence where
  | high
  | medium
  | low
  deriving Repr, DecidableEq

/-- One drive reduced to a normalized consumption-rate data point
(`EfficiencyDataPoint`).  The `date` field is the UTC day index standing in
for the source's `YYYY-MM-DD` string (see `epochDay`). -/
structure EfficiencyDataPoint where
  date : ℤ
  efficiency_kwh_per_100mi : ℚ
  distance_miles : ℚ
  weather_factor : WeatherFactor
  highway_percentage : ℚ
  avg_speed : ℚ
  deriving Repr, DecidableEq

/-- One trend window (`EfficiencyTrend`). -/
structure EfficiencyTrend where
  period : String
  trend_direction : TrendDirection
  trend_percentage : ℚ
  avg_efficiency : ℚ
  best_efficiency : ℚ
  worst_efficiency : ℚ
  confidence : Confidence
  deriving Repr, DecidableEq

/-- Current-period summary of `EfficiencyAnalysis`. -/
structure CurrentPeriod where
  avg_efficiency : ℚ
  total_miles : ℚ
  total_drives : ℕ
  range_best : ℚ
  range_worst : ℚ
  deriving Repr, DecidableEq

/-- The three trend windows of `EfficiencyAnalysis`. -/
structure Trends where
  weekly : EfficiencyTrend
  monthly : EfficiencyTrend
  seasonal : EfficiencyTrend
  deriving Repr, DecidableEq

/-- Weather-impact factor block. -/
structure WeatherImpact where
  hot_weather_penalty : ℚ
  cold_weather_penalty : ℚ
  optimal_temp_range : String
  deriving Repr, DecidableEq

/-- Speed-impact factor block. -/
structure SpeedImpact where
  highway_efficiency : ℚ
  city_efficiency : ℚ
  optimal_speed_range : String
  deriving Repr, DecidableEq

/-- Time-pattern factor block. -/
structure TimePatterns where
  best_day_of_week : String
  worst_day_of_week : String
  best_time_of_day : String
  deriving Repr, DecidableEq

/-- Factor decomposition of `EfficiencyAnalysis`. -/
structure FactorsAnalysis where
  weather_impact : WeatherImpact
  speed_impact : SpeedImpact
  time_patterns : TimePatterns
  deriving Repr, DecidableEq

/-- The full `EfficiencyAnalysis` result. -/
structure EfficiencyAnalysis where
  current_period : CurrentPeriod
  trends : Trends
  factors_analysis : FactorsAnalysis
  recommendations : List String
  insights : List String
  deriving Repr, DecidableEq

/-- The shared `average` helper: arithmetic mean rounded to 2 decimals,
`0` on the empty list. -/
def average (numbers : List ℚ) : ℚ :=
  if numbers.isEmpty then 0 else round2 (numbers.sum / (numbers.length : ℚ))

/-- Source `emptyAnalysis`: the explicit low-confidence result returned when fewer
than 5 drives are supplied. -/
def emptyAnalysis (message : String) : EfficiencyAnalysis :=
  let emptyTrend : EfficiencyTrend :=
    { period := "N/A", trend_direction := TrendDirection.stable,
      trend_percentage := 0, avg_efficiency := 0, best_efficiency := 0,
      worst_efficiency := 0, confidence := Confidence.low }
  { current_period :=
      { avg_efficiency := 0, total_miles := 0, total_drives := 0,
        range_best := 0, range_worst := 0 },
    trends := { weekly := emptyTrend, monthly := emptyTrend, seasonal := emptyTrend },
    factors_analysis :=
      { weather_impact :=
          { hot_weather_penalty := 0, cold_weather_penalty := 0,
            optimal_temp_range := "Unknown" },
        speed_impact :=
          { highway_efficiency := 0, city_efficiency := 0,
            optimal_speed_range := "Unknown" },
        time_patterns :=
          { best_day_of_week := "Unknown", worst_day_of_week := "Unknown",
            best_time_of_day := "Unknown" } },
    recommendations := [message],
    insights := [] }

/-- The data-point conversion applied to one drive inside
`convertToDataPoints` (before the plausibility filter). -/
def toDataPoint (drive : TessieDrive) : EfficiencyDataPoint :=
  let distance := drive.odometer_distance
  let batteryUsed := drive.starting_battery - drive.ending_battery
  let efficiency :=
    if distance > 0 then batteryUsed / 100 * 75 / distance * 100 else 0
  -- `drive.average_speed || 0` is the identity on exact rationals.
  let avgSpeed := drive.average_speed
  let highwayPercentage :=
    if avgSpeed > 55 then min 100 ((avgSpeed - 25) / 45 * 100) else 0
  let weatherFactor :=
    if efficiency > 35 then WeatherFactor.cold
    else if efficiency > 30 then WeatherFactor.hot
    else WeatherFactor.mild
  { date := epochDay drive.started_at,
    efficiency_kwh_per_100mi := efficiency,
    distance_miles := distance,
    weather_factor := weatherFactor,
    highway_percentage := highwayPercentage,
    avg_speed := avgSpeed }

/-- Source `convertToDataPoints`: map the drives to data points, then keep only the
points with a consumption rate strictly between 0 and 60 kWh/100mi. -/
def convertToDataPoints (drives : List TessieDrive) : List EfficiencyDataPoint :=
  (drives.map toDataPoint).filter (fun dp =>
    decide (dp.efficiency_kwh_per_100mi > 0) && decide (dp.efficiency_kwh_per_100mi < 60))

/-- Source `calculateCurrentPeriodStats`. -/
def calculateCurrentPeriodStats (dataPoints : List EfficiencyDataPoint) : CurrentPeriod :=
  let efficiencies := dataPoints.map (·.efficiency_kwh_per_100mi)
  { avg_efficiency := average efficiencies,
    total_miles := round2 ((dataPoints.map (·.distance_miles)).sum),
    total_drives := dataPoints.length,
    range_best := jsMinList efficiencies,
    range_worst := jsMaxList efficiencies }

/-- Millisecond timestamp of the UTC midnight that `new Date(dp.date)`
produces from the stored `YYYY-MM-DD` string. -/
def dateMs (dp : EfficiencyDataPoint) : ℤ := dp.date * 86400000

/-- Source `calculatePeriodTrend`, parameterized by the current time in Unix
milliseconds (the source reads `Date.now()`). -/
def calculatePeriodTrend (nowMs : ℤ) (dataPoints : List EfficiencyDataPoint)
    (days : ℤ) (period : String) : EfficiencyTrend :=
  let periodStart := nowMs - days * 86400000
  let previousPeriodStart := nowMs - 2 * days * 86400000
  let currentPeriodData := dataPoints.filter (fun dp =>
    decide (periodStart ≤ dateMs dp) && decide (dateMs dp ≤ nowMs))
  let previousPeriodData := dataPoints.filter (fun dp =>
    decide (previousPeriodStart ≤ dateMs dp) && decide (dateMs dp < periodStart))
  if currentPeriodData.length < 2 ∨ previousPeriodData.length < 2 then
    { period := period, trend_direction := TrendDirection.stable,
      trend_percentage := 0,
      avg_efficiency :=
        if currentPeriodData.length > 0 then
          average (currentPeriodData.map (·.efficiency_kwh_per_100mi))
        else 0,
      best_efficiency :=
        if currentPeriodData.length > 0 then
          jsMinList (currentPeriodData.map (·.efficiency_kwh_per_100mi))
        else 0,
      worst_efficiency :=
        if currentPeriodData.length > 0 then
          jsMaxList (currentPeriodData.map (·.efficiency_kwh_per_100mi))
        else 0,
      confidence := Confidence.low }
  else
    let currentAvg := average (currentPeriodData.map (·.efficiency_kwh_per_100mi))
    let previousAvg := average (previousPeriodData.map (·.efficiency_kwh_per_100mi))
    -- Division by zero yields 0 (JS: NaN, which also produces a `stable`
    -- direction); `trend_percentage` then differs only on that degenerate
    -- input, which no verified property evaluates.
    let trendPercentage := (previousAvg - currentAvg) / previousAvg * 100
    { period := period,
      trend_direction :=
        if trendPercentage > 3 then TrendDirection.improving
        else if trendPercentage < -3 then TrendDirection.declining
        else TrendDirection.stable,
      trend_percentage := |trendPercentage|,
      avg_efficiency := currentAvg,
      best_efficiency := jsMinList (currentPeriodData.map (·.efficiency_kwh_per_100mi)),
      worst_efficiency := jsMaxList (currentPeriodData.map (·.efficiency_kwh_per_100mi)),
      confidence :=
        if currentPeriodData.length ≥ 5 ∧ previousPeriodData.length ≥ 5 then Confidence.high
        else if currentPeriodData.length ≥ 3 ∧ previousPeriodData.length ≥ 3 then
          Confidence.medium
        else Confidence.low }

/-- Source `calculateTrends`: the 7/30/90-day windows. -/
def calculateTrends (nowMs : ℤ) (dataPoints : List EfficiencyDataPoint) : Trends :=
  { weekly := calculatePeriodTrend nowMs dataPoints 7 ("weekly"),
    monthly := calculatePeriodTrend nowMs dataPoints 30 ("monthly"),
    seasonal := calculatePeriodTrend nowMs dataPoints 90 ("seasonal") }

/-- Day-of-week index of a Unix-seconds timestamp shifted into local time
(`new Date(t * 1000).getDay()`); `tzShiftSec` is the offset added to UTC to
obtain the local clock (0 models a UTC environment).  1970-01-01 was a
Thursday, index 4. -/
def getDayIdx (tzShiftSec t : ℤ) : ℤ := (epochDay (t + tzShiftSec) + 4) % 7

/-- Hour-of-day (`new Date(t * 1000).getHours()`) in local time. -/
def getHours (tzShiftSec t : ℤ) : ℤ := Int.fdiv (t + tzShiftSec) 3600 % 24

/-- Day names indexed by `getDayIdx`. -/
def dayNames : List String :=
  ["Sunday", "Monday", "Tuesday", "Wednesday", "Thursday", "Friday", "Saturday"]

/-- Register a key in an insertion-ordered association list and optionally
push a value onto its bucket (models `if (!stats[k]) stats[k] = []` followed
by a conditional `push`; JS objects with string keys iterate in insertion
order). -/
def pushStat (stats : List (String × List ℚ)) (k : String) (v : Option ℚ) :
    List (String × List ℚ) :=
  match stats with
  | [] => [(k, v.toList)]
  | (k', vs) :: rest =>
    if k' = k then (k', vs ++ v.toList) :: rest else (k', vs) :: pushStat rest k v

/-- The per-day efficiency buckets, in first-appearance order of the days. -/
def dailyStats (tzShiftSec : ℤ) (drives : List TessieDrive)
    (dataPoints : List EfficiencyDataPoint) : List (String × List ℚ) :=
  drives.enum.foldl (fun stats p =>
    let dayOfWeek := dayNames.getD (getDayIdx tzShiftSec p.2.started_at).toNat ""
    -- `dataPoints[index]`: the source pairs drive `i` with data point `i`
    -- even though the data points were filtered (an index misalignment kept
    -- faithfully here).
    pushStat stats dayOfWeek ((dataPoints.get? p.1).map (·.efficiency_kwh_per_100mi)))
    []

/-- Fold selecting the best (lowest-average, strict improvement, `Infinity`
start modelled by `Option`) day label. -/
def bestDayFold (stats : List (String × List ℚ)) : String :=
  (stats.foldl (fun acc p =>
    if p.2.isEmpty then acc
    else
      let avgEff := average p.2
      match acc.2 with
      | none => (p.1, some avgEff)
      | some b => if avgEff < b then (p.1, some avgEff) else acc)
    (("Unknown"), none)).1

/-- Fold selecting the worst (highest-average, strict, starting at 0) day
label. -/
def worstDayFold (stats : List (String × List ℚ)) : String :=
  (stats.foldl (fun acc p =>
    if p.2.isEmpty then acc
    else
      let avgEff := average p.2
      if avgEff > acc.2 then (p.1, avgEff) else acc)
    (("Unknown"), (0 : ℚ))).1

/-- Efficiencies of the drives starting in hour `h` (paired with the
index-aligned data point, as in the source). -/
def hourBucket (tzShiftSec : ℤ) (drives : List TessieDrive)
    (dataPoints : List EfficiencyDataPoint) (h : ℤ) : List ℚ :=
  drives.enum.filterMap (fun p =>
    if getHours tzShiftSec p.2.started_at = h then
      (dataPoints.get? p.1).map (·.efficiency_kwh_per_100mi)
    else none)

/-- Clock label of an hour (`8AM`, `12PM`, ...), as formatted by the source. -/
def hourLabel (h : ℤ) : String :=
  (if h = 0 then ("12") else if h > 12 then toString (h - 12) else toString h) ++
    (if h < 12 then ("AM") else ("PM"))

/-- Best time of day: hour buckets (numeric object keys iterate in ascending
order in JS) with at least 2 samples, lowest average wins strictly. -/
def bestTimeFold (tzShiftSec : ℤ) (drives : List TessieDrive)
    (dataPoints : List EfficiencyDataPoint) : String :=
  ((List.range 24).foldl (fun acc h =>
    let effs := hourBucket tzShiftSec drives dataPoints (h : ℤ)
    if effs.length ≥ 2 then
      let avgEff := average effs
      match acc.2 with
      | none => (hourLabel (h : ℤ), some avgEff)
      | some b => if avgEff < b then (hourLabel (h : ℤ), some avgEff) else acc
    else acc)
    (("Unknown"), (none : Option ℚ))).1

/-- Source `analyzeTimePatterns` (efficiency analyzer): best/worst day of week and
best time of day. -/
def analyzeTimePatterns (tzShiftSec : ℤ) (drives : List TessieDrive)
    (dataPoints : List EfficiencyDataPoint) : TimePatterns :=
  let stats := dailyStats tzShiftSec drives dataPoints
  { best_day_of_week := bestDayFold stats,
    worst_day_of_week := worstDayFold stats,
    best_time_of_day := bestTimeFold tzShiftSec drives dataPoints }

/-- Source `analyzeEfficiencyFactors`: weather proxy, speed regime and time-pattern
decomposition. -/
def analyzeEfficiencyFactors (tzShiftSec : ℤ) (drives : List TessieDrive)
    (dataPoints : List EfficiencyDataPoint) : FactorsAnalysis :=
  let hotWeatherData := dataPoints.filter (fun dp => dp.weather_factor = WeatherFactor.hot)
  let coldWeatherData := dataPoints.filter (fun dp => dp.weather_factor = WeatherFactor.cold)
  let mildWeatherData := dataPoints.filter (fun dp => dp.weather_factor = WeatherFactor.mild)
  let mildAvg :=
    if mildWeatherData.length > 0 then
      average (mildWeatherData.map (·.efficiency_kwh_per_100mi))
    else 0
  let hotAvg :=
    if hotWeatherData.length > 0 then
      average (hotWeatherData.map (·.efficiency_kwh_per_100mi))
    else mildAvg
  let coldAvg :=
    if coldWeatherData.length > 0 then
      average (coldWeatherData.map (·.efficiency_kwh_per_100mi))
    else mildAvg
  let highwayData := dataPoints.filter (fun dp => decide (dp.highway_percentage > 50))
  let cityData := dataPoints.filter (fun dp => decide (dp.highway_percentage ≤ 50))
  let highwayEfficiency :=
    if highwayData.length > 0 then average (highwayData.map (·.efficiency_kwh_per_100mi))
    else 0
  let cityEfficiency :=
    if cityData.length > 0 then average (cityData.map (·.efficiency_kwh_per_100mi))
    else 0
  { weather_impact :=
      { hot_weather_penalty := if mildAvg > 0 then (hotAvg - mildAvg) / mildAvg * 100 else 0,
        cold_weather_penalty := if mildAvg > 0 then (coldAvg - mildAvg) / mildAvg * 100 else 0,
        optimal_temp_range := "65-75°F" },
    speed_impact :=
      { highway_efficiency := round2 highwayEfficiency,
        city_efficiency := round2 cityEfficiency,
        optimal_speed_range := "45-65 mph" },
    time_patterns := analyzeTimePatterns tzShiftSec drives dataPoints }

/-- Model of `Number.prototype.toFixed(1)` (round half toward +infinity on the scaled
value, per the ECMAScript algorithm; the sign of a negative value rounding to
zero is dropped, a case no verified property evaluates). -/
def jsToFixed1 (q : ℚ) : String :=
  let scaled := jsRound (q * 10)
  let sign := if scaled < 0 then ("-") else ("")
  let a := scaled.natAbs
  sign ++ toString (a / 10) ++ (".") ++ toString (a % 10)

/-- Source `generateInsights`: free-text observations from the same thresholds. -/
def generateInsights (trends : Trends) (factors : FactorsAnalysis) : List String :=
  (if trends.weekly.confidence ≠ Confidence.low then
    (if trends.weekly.trend_direction = TrendDirection.improving then
      [("📈 Your efficiency has improved ") ++ jsToFixed1 trends.weekly.trend_percentage ++
        ("% this week - great driving habits!")]
    else if trends.weekly.trend_direction = TrendDirection.declining then
      [("📉 Your efficiency declined ") ++ jsToFixed1 trends.weekly.trend_percentage ++
        ("% this week - check driving patterns and tire pressure")]
    else [])
  else []) ++
  (if factors.weather_impact.cold_weather_penalty > 15 then
    [("🥶 Cold weather is significantly impacting efficiency (+") ++
      jsToFixed1 factors.weather_impact.cold_weather_penalty ++ ("% consumption)")]
  else []) ++
  (if factors.weather_impact.hot_weather_penalty > 10 then
    [("🔥 Hot weather and A/C usage is increasing consumption (+") ++
      jsToFixed1 factors.weather_impact.hot_weather_penalty ++ ("%)")]
  else []) ++
  (if factors.speed_impact.highway_efficiency > 0 ∧ factors.speed_impact.city_efficiency > 0 then
    (let diff := factors.speed_impact.highway_efficiency - factors.speed_impact.city_efficiency
    if |diff| > 3 then
      if diff > 0 then
        [("🏙️ City driving is ") ++ jsToFixed1 |diff| ++
          (" kWh/100mi more efficient than highway driving")]
      else
        [("🛣️ Highway driving is ") ++ jsToFixed1 |diff| ++
          (" kWh/100mi more efficient than city driving")]
    else [])
  else []) ++
  (if factors.time_patterns.best_day_of_week ≠ ("Unknown") ∧
      factors.time_patterns.worst_day_of_week ≠ ("Unknown") then
    [("📅 Most efficient driving: ") ++ factors.time_patterns.best_day_of_week ++
      ("s. Least efficient: ") ++ factors.time_patterns.worst_day_of_week ++ ("s")]
  else []) ++
  (if trends.monthly.confidence = Confidence.high ∧
      trends.monthly.trend_direction = TrendDirection.improving then
    [("🎯 Monthly trend shows ") ++ jsToFixed1 trends.monthly.trend_percentage ++
      ("% efficiency improvement - your driving is optimizing!")]
  else [])

/-- Source `generateRecommendations`: threshold-driven advice strings. -/
def generateRecommendations (trends : Trends) (factors : FactorsAnalysis) : List String :=
  (if trends.weekly.trend_direction = TrendDirection.declining ∧
      trends.weekly.confidence ≠ Confidence.low then
    [("⚡ Check tire pressure and reduce aggressive acceleration to improve efficiency"),
     ("🌡️ Use Eco mode in extreme weather conditions")]
  else []) ++
  (if factors.weather_impact.cold_weather_penalty > 20 then
    [("❄️ Pre-condition cabin while plugged in during cold weather"),
     ("🔋 Expect 15-25% reduced range in freezing temperatures")]
  else []) ++
  (if factors.weather_impact.hot_weather_penalty > 15 then
    [("☀️ Park in shade and use mobile app to pre-cool before driving"),
     ("🌬️ Use seat heaters instead of cabin heat when possible")]
  else []) ++
  (if factors.speed_impact.highway_efficiency > factors.speed_impact.city_efficiency + 5 then
    [("🏁 Reduce highway speeds to 65-70 mph for optimal efficiency"),
     ("🛣️ Use cruise control on highways to maintain consistent speed")]
  else []) ++
  [("🚗 Maintain following distance to maximize regenerative braking"),
   ("📱 Monitor real-time efficiency display to develop efficient habits")] ++
  (if factors.time_patterns.best_day_of_week ≠ ("Unknown") then
    [("📅 Schedule non-urgent trips on ") ++ factors.time_patterns.best_day_of_week ++
      ("s for best efficiency")]
  else [])

/-- Source `analyzeEfficiencyTrends`, parameterized by the environment (`Date.now()`
in milliseconds and the local-time offset) read by the source at run time.
Fewer than 5 drives short-circuit to `emptyAnalysis`. -/
def analyzeEfficiencyTrends (nowMs tzShiftSec : ℤ) (drives : List TessieDrive) :
    EfficiencyAnalysis :=
  if drives.length < 5 then
    emptyAnalysis ("Insufficient driving data for trend analysis (minimum 5 drives required)")
  else
    let sortedDrives := sortDrives drives
    let dataPoints := convertToDataPoints sortedDrives
    let trends := calculateTrends nowMs dataPoints
    let factorsAnalysis := analyzeEfficiencyFactors tzShiftSec sortedDrives dataPoints
    { current_period := calculateCurrentPeriodStats dataPoints,
      trends := trends,
      factors_analysis := factorsAnalysis,
      recommendations := generateRecommendations trends factorsAnalysis,
      insights := generateInsights trends factorsAnalysis }

/-- The caller's array after `analyzeEfficiencyTrends` returns: the source
executes `const sortedDrives = drives.sort(...)` (no copy), so from 5 drives
on the caller's array is sorted in place. -/
def analyzeEfficiencyTrendsInputAfter (drives : List TessieDrive) : List TessieDrive :=
  if drives.length < 5 then drives else sortDrives drives

end EfficiencyAnalyzer

namespace CommuteAnalyzer

open EfficiencyAnalyzer (average)

/-- Trend direction of a route's recent efficiency. -/
inductive RouteTrend where
  | improving
  | declining
  | stable
  deriving Repr, DecidableEq

/-- A retained commute route (`CommuteRoute`).  The `time_patterns` block of
the source (counts plus `toLocaleTimeString`-formatted mean clock times) is
locale/timezone-dependent presentation and is not part of the embedding; no
verified property mentions it. -/
structure CommuteRoute where
  id : String
  name : String
  from_location : String
  to_location : String
  typical_distance : ℚ
  frequency : ℚ
  avg_duration_minutes : ℚ
  avg_efficiency_kwh_per_100mi : ℚ
  avg_battery_used : ℚ
  best_efficiency : ℚ
  worst_efficiency : ℚ
  recent_trend : RouteTrend
  deriving Repr, DecidableEq

/-- The `CommuteAnalysis` result.  The free-text `recommendations` and the
day-of-week `weekly_summary` of the source depend on the runtime locale and
timezone (`Date#getDay`, `toLocaleTimeString`) and are presentation only;
they are not part of the embedding and no verified property mentions them. -/
structure CommuteAnalysis where
  routes_detected : ℕ
  total_commute_miles : ℚ
  total_commute_cost : ℚ
  avg_commute_efficiency : ℚ
  routes : List CommuteRoute
  deriving Repr, DecidableEq

/-- The `HOME_RATE_PER_KWH` constant (0.13 $/kWh). -/
def HOME_RATE_PER_KWH : ℚ := 13/100

/-- The empty analysis returned below the 10-drive minimum (the source also
carries an explanatory message in its omitted presentation fields). -/
def emptyAnalysis : CommuteAnalysis :=
  { routes_detected := 0, total_commute_miles := 0, total_commute_cost := 0,
    avg_commute_efficiency := 0, routes := [] }

/-- Source `normalizeLocation` (inside `generateRouteId`): with at least 3
comma-separated segments, keep the third-from-last and second-from-last
segments (trimmed); otherwise return the label unchanged. -/
def normalizeLocation (location : String) : String :=
  let parts := splitOnChar ',' location.data
  if parts.length ≥ 3 then
    String.mk (trimChars (parts.getD (parts.length - 3) []) ++
      [',', ' '] ++ trimChars (parts.getD (parts.length - 2) []))
  else location

/-- Source `generateRouteId`: direction-independent key, the two normalized
endpoints sorted lexicographically (JS default `sort`) and joined with
an arrow. -/
def generateRouteId (startLocation endLocation : String) : String :=
  let start := normalizeLocation startLocation
  let stop := normalizeLocation endLocation
  let sep := (" ↔ ").data
  if strLt stop.data start.data then String.mk (stop.data ++ sep ++ start.data)
  else String.mk (start.data ++ sep ++ stop.data)

/-- Append a drive to the bucket of its route key, preserving the JS `Map`
insertion order of keys (`groupDrivesByRoute` body). -/
def addToGroups : List (String × List TessieDrive) → String → TessieDrive →
    List (String × List TessieDrive)
  | [], rid, d => [(rid, [d])]
  | (k, ds) :: rest, rid, d =>
    if k = rid then (k, ds ++ [d]) :: rest else (k, ds) :: addToGroups rest rid d

/-- Source `groupDrivesByRoute`: group the drives by route key, keys in
first-appearance order. -/
def groupDrivesByRoute (drives : List TessieDrive) :
    List (String × List TessieDrive) :=
  drives.foldl (fun routes drive =>
    addToGroups routes (generateRouteId drive.starting_location drive.ending_location) drive)
    []

/-- Per-drive consumption rate with the zero-distance guard
(`(battery / 100) * 75 / distance * 100`). -/
def driveEfficiency (d : TessieDrive) : ℚ :=
  if d.odometer_distance = 0 then 0
  else (d.starting_battery - d.ending_battery) / 100 * 75 / d.odometer_distance * 100

/-- Source `calculateAvgEfficiencyForDrives`: mean of the per-drive rates inside
the plausible range (0, 50). -/
def calculateAvgEfficiencyForDrives (drives : List TessieDrive) : ℚ :=
  average ((drives.map driveEfficiency).filter (fun e =>
    decide (e > 0) && decide (e < 50)))

/-- Source `calculateEfficiencyTrend`: recent 6 drives vs the up-to-6 before them,
with a ±5 % threshold. -/
def calculateEfficiencyTrend (drives : List TessieDrive) : RouteTrend :=
  if drives.length < 6 then RouteTrend.stable
  else
    let sortedDrives := sortDrives drives
    let recentDrives := sortedDrives.drop (sortedDrives.length - 6)
    let olderDrives := sortedDrives.take (min 6 (drives.length - 6))
    if olderDrives.length = 0 then RouteTrend.stable
    else
      let recentEfficiency := calculateAvgEfficiencyForDrives recentDrives
      let olderEfficiency := calculateAvgEfficiencyForDrives olderDrives
      -- Division by zero yields 0 (JS: NaN, which also falls through to
      -- `stable`).
      let improvement := (olderEfficiency - recentEfficiency) / olderEfficiency * 100
      if improvement > 5 then RouteTrend.improving
      else if improvement < -5 then RouteTrend.declining
      else RouteTrend.stable

/-- Source `calculateWeeklyFrequency`: member count divided by the first-to-last
span in weeks; a zero span reports the raw member count. -/
def calculateWeeklyFrequency (drives : List TessieDrive) : ℚ :=
  if drives.length = 0 then 0
  else
    let sortedDrives := sortDrives drives
    let firstDrive := sortedDrives.headD defaultDrive
    let lastDrive := sortedDrives.getLastD defaultDrive
    let timeSpanWeeks : ℚ :=
      ((lastDrive.started_at - firstDrive.started_at : ℤ) : ℚ) / (7 * 24 * 3600)
    if timeSpanWeeks = 0 then (drives.length : ℚ)
    else round2 ((drives.length : ℚ) / timeSpanWeeks)

/-- Source `extractCityName` (inside `generateRouteName`): third-from-last segment
if present and nonempty after trimming, else first segment; single-segment
labels fall back to their first space-separated word. -/
def extractCityName (location : String) : String :=
  let parts := splitOnChar ',' location.data
  if parts.length ≥ 2 then
    let t := trimChars (parts.getD (parts.length - 3) [])
    if parts.length ≥ 3 ∧ t ≠ [] then String.mk t
    else String.mk (trimChars (parts.getD 0 []))
  else String.mk ((splitOnChar ' ' location.data).getD 0 [])

/-- Source `generateRouteName`. -/
def generateRouteName (drive : TessieDrive) : String :=
  let startCity := extractCityName drive.starting_location
  let endCity := extractCityName drive.ending_location
  if startCity = endCity then startCity ++ (" Local")
  else startCity ++ (" ↔ ") ++ endCity

/-- Source `analyzeRoute` on one route group (nonempty by construction of
`groupDrivesByRoute`; `drives[0]` is modelled with `headD`). -/
def analyzeRoute (routeGroup : String × List TessieDrive) : CommuteRoute :=
  let drives := routeGroup.2
  let head := drives.headD defaultDrive
  let distances := drives.map (·.odometer_distance)
  let durations := drives.map (fun d => ((d.ended_at - d.started_at : ℤ) : ℚ) / 60)
  let batteryUsed := drives.map (fun d => d.starting_battery - d.ending_battery)
  let efficiencies := (drives.map driveEfficiency).filter (fun e =>
    decide (e > 0) && decide (e < 50))
  { id := routeGroup.1,
    name := generateRouteName head,
    from_location := head.starting_location,
    to_location := head.ending_location,
    typical_distance := average distances,
    frequency := calculateWeeklyFrequency drives,
    avg_duration_minutes := average durations,
    avg_efficiency_kwh_per_100mi := average efficiencies,
    avg_battery_used := average batteryUsed,
    best_efficiency := jsMinList efficiencies,
    worst_efficiency := jsMaxList efficiencies,
    recent_trend := calculateEfficiencyTrend drives }

/-- Source `calculateCommuteCost`: assumed 4 mi/kWh at the home rate. -/
def calculateCommuteCost (totalMiles : ℚ) : ℚ :=
  totalMiles / 4 * HOME_RATE_PER_KWH

/-- Source `calculateAvgEfficiency` over the retained routes. -/
def calculateAvgEfficiency (routes : List CommuteRoute) : ℚ :=
  if routes.length = 0 then 0
  else round2 ((routes.map (·.avg_efficiency_kwh_per_100mi)).sum / (routes.length : ℚ))

/-- Source `analyzeCommutes`: below 10 drives, the explicit empty analysis;
otherwise group by route key and retain groups with at least
`MIN_ROUTE_FREQUENCY = 3` member drives. -/
def analyzeCommutes (drives : List TessieDrive) : CommuteAnalysis :=
  if drives.length < 10 then emptyAnalysis
  else
    let routeGroups := groupDrivesByRoute drives
    let commuteRoutes :=
      (routeGroups.filter (fun g => decide (3 ≤ g.2.length))).map analyzeRoute
    let totalCommuteMiles :=
      (commuteRoutes.map (fun r => r.typical_distance * r.frequency)).sum
    let totalCommuteCost := calculateCommuteCost totalCommuteMiles
    { routes_detected := commuteRoutes.length,
      total_commute_miles := round2 totalCommuteMiles,
      total_commute_cost := round2 totalCommuteCost,
      avg_commute_efficiency := calculateAvgEfficiency commuteRoutes,
      routes := commuteRoutes }

/-- The caller's array after `analyzeCommutes` returns: the source only reads
the input list (groups are fresh arrays; the in-place sorts inside
`calculateEfficiencyTrend` / `calculateWeeklyFrequency` act on those fresh
group arrays), so the caller's array is untouched. -/
def analyzeCommutesInputAfter (drives : List TessieDrive) : List TessieDrive := drives

end CommuteAnalyzer

namespace TripCalculator

/-- Cost split produced by `estimateChargingCosts`. -/
structure ChargingCosts where
  electricityCost : ℚ
  chargingStopsCost : ℚ
  totalCost : ℚ
  deriving Repr, DecidableEq

/-- Source `calculateTotalBatteryUsed`: sum of the positive per-drive battery drops
(the `lastEndingBattery` variable in the source is tracked but never affects
the result). -/
def calculateTotalBatteryUsed (drives : List TessieDrive) : ℚ :=
  (drives.map (fun d =>
    let driveUsage := d.starting_battery - d.ending_battery
    if driveUsage > 0 then driveUsage else 0)).sum

/-- The charging-gap scan of `estimateChargingCosts`: for every consecutive
pair with battery gain above 2 points, price the gained energy at the
supercharger rate (gap under 1 h and gain above 30) or the home rate,
accumulating `(homeCost, superchargerCost)`. -/
def chargingGapCosts (drives : List TessieDrive) (homeRate superchargerRate : ℚ) :
    ℚ × ℚ :=
  (drives.zip drives.tail).foldl (fun acc p =>
    let prevDrive := p.1
    let currentDrive := p.2
    let batteryGained := currentDrive.starting_battery - prevDrive.ending_battery
    if batteryGained > 2 then
      let energyAdded := batteryGained / 100 * 75
      let gapHours := ((currentDrive.started_at - prevDrive.ended_at : ℤ) : ℚ) / 3600
      if gapHours < 1 ∧ batteryGained > 30 then
        (acc.1, acc.2 + energyAdded * superchargerRate)
      else (acc.1 + energyAdded * homeRate, acc.2)
    else acc)
    (0, 0)

/-- Detected charging energy in kWh
(`homeCost / homeRate + superchargerCost / superchargerRate`). -/
def detectedChargingKwh (drives : List TessieDrive) (homeRate superchargerRate : ℚ) : ℚ :=
  (chargingGapCosts drives homeRate superchargerRate).1 / homeRate +
    (chargingGapCosts drives homeRate superchargerRate).2 / superchargerRate

/-- Source `estimateChargingCosts`: gap scan, then top up the home bucket with the
unaccounted energy when the detected energy is below half of the total. -/
def estimateChargingCosts (drives : List TessieDrive) (totalEnergyKwh homeRate superchargerRate : ℚ) :
    ChargingCosts :=
  let costs := chargingGapCosts drives homeRate superchargerRate
  let detected := detectedChargingKwh drives homeRate superchargerRate
  let homeCost :=
    if detected < totalEnergyKwh * (1/2) then
      costs.1 + (totalEnergyKwh - detected) * homeRate
    else costs.1
  { electricityCost := homeCost,
    chargingStopsCost := costs.2,
    totalCost := homeCost + costs.2 }

/-- The cost-attribution slice of `calculateTripCost`: sort the drives, total
the battery used, convert to kWh at the assumed 75 kWh pack, and split the
cost with `estimateChargingCosts`. -/
def tripChargingCosts (drives : List TessieDrive) (homeRate superchargerRate : ℚ) :
    ChargingCosts :=
  let sortedDrives := sortDrives drives
  let totalBatteryUsed := calculateTotalBatteryUsed sortedDrives
  estimateChargingCosts sortedDrives (totalBatteryUsed / 100 * 75) homeRate superchargerRate

/-- Result record of `estimateFutureTripCost`. -/
structure FutureTripPlan where
  estimated_cost : ℚ
  charging_needed : Bool
  recommended_charge_level : ℤ
  charging_stops_needed : ℤ
  strategy : String
  deriving Repr, DecidableEq

/-- Rendering of a number into a template string; integers render as in JS,
the decimal rendering of non-integers differs (no verified property reads a
string built from a non-integer). -/
def jsNumToString (q : ℚ) : String :=
  if q.den = 1 then toString q.num
  else toString q.num ++ ("/") ++ toString q.den

/-- The charge deficit computed by `estimateFutureTripCost`: required charge
(at 4 mi/kWh on a 75 kWh pack) with a 15 % buffer, minus the current charge,
clamped at 0. -/
def futureChargeDeficit (distanceMiles currentBatteryPercent : ℚ) : ℚ :=
  max 0 (distanceMiles / 4 / 75 * 100 * (115/100) - currentBatteryPercent)

/-- Source `estimateFutureTripCost` (default rates 0.13 and 0.28 $/kWh). -/
def estimateFutureTripCost (distanceMiles currentBatteryPercent : ℚ)
    (homeRate : ℚ := 13/100) (superchargerRate : ℚ := 28/100) : FutureTripPlan :=
  let energyNeeded := distanceMiles / 4
  let batteryPercentNeeded := energyNeeded / 75 * 100
  let totalBatteryNeeded := batteryPercentNeeded * (115/100)
  let chargingNeeded : Bool := decide (totalBatteryNeeded > currentBatteryPercent)
  let chargeDeficit := max 0 (totalBatteryNeeded - currentBatteryPercent)
  let superchargerStopsNeeded : ℤ := ⌈chargeDeficit / 50⌉
  let estimatedCost : ℚ :=
    if chargingNeeded then
      if chargeDeficit ≤ 60 then chargeDeficit / 100 * 75 * homeRate
      else
        let homeChargeKwh := (90 - currentBatteryPercent) / 100 * 75
        let superchargerKwh := (chargeDeficit - (90 - currentBatteryPercent)) / 100 * 75
        homeChargeKwh * homeRate + superchargerKwh * superchargerRate
    else 0
  let strategy : String :=
    if chargingNeeded then
      if chargeDeficit ≤ 60 then
        ("Charge to ") ++ toString (jsRound (currentBatteryPercent + chargeDeficit)) ++
          ("% at home before departure")
      else
        ("Charge to 90% at home, then ") ++ toString superchargerStopsNeeded ++
          (" Supercharger stop") ++ (if superchargerStopsNeeded > 1 then ("s") else ("")) ++
          (" during trip")
    else
      ("No charging needed - current ") ++ jsNumToString currentBatteryPercent ++
        ("% is sufficient")
  { estimated_cost := round2 estimatedCost,
    charging_needed := chargingNeeded,
    recommended_charge_level := min 100 (jsRound (currentBatteryPercent + chargeDeficit)),
    charging_stops_needed := superchargerStopsNeeded,
    strategy := strategy }

end TripCalculator

-- ### General lemmas about the chunking machinery

lemma chunkByAdj_cons {α : Type} (R : α → α → Bool) (x : α) (l : List α) :
    chunkByAdj R (x :: l) = chunkCons R x (chunkByAdj R l) := rfl

lemma chunkCons_join {α : Type} (R : α → α → Bool) (x : α) (cs : List (α × List α)) :
    (chunkCons R x cs).flatMap grpList = x :: cs.flatMap grpList := by
  cases cs with
  | nil => simp [chunkCons, grpList]
  | cons c rest =>
    obtain ⟨e, g⟩ := c
    by_cases h : R x e <;> simp [chunkCons, h, grpList]

lemma chunkByAdj_join {α : Type} (R : α → α → Bool) (l : List α) :
    (chunkByAdj R l).flatMap grpList = l := by
  induction l with
  | nil => rfl
  | cons x l ih => rw [chunkByAdj_cons, chunkCons_join, ih]

lemma chunkCons_shape {α : Type} (R : α → α → Bool) (x : α) (cs : List (α × List α)) :
    ∃ t gs, chunkCons R x cs = (x, t) :: gs := by
  cases cs with
  | nil => exact ⟨[], [], rfl⟩
  | cons c rest =>
    obtain ⟨e, g⟩ := c
    by_cases h : R x e
    · exact ⟨e :: g, rest, by simp [chunkCons, h]⟩
    · exact ⟨[], (e, g) :: rest, by simp [chunkCons, h]⟩

lemma chunkByAdj_cons_shape {α : Type} (R : α → α → Bool) (x : α) (l : List α) :
    ∃ t gs, chunkByAdj R (x :: l) = (x, t) :: gs := by
  rw [chunkByAdj_cons]; exact chunkCons_shape R x _

lemma chunkByAdj_ne_nil {α : Type} (R : α → α → Bool) (l : List α) (h : l ≠ []) :
    chunkByAdj R l ≠ [] := by
  cases l with
  | nil => exact absurd rfl h
  | cons x l =>
    obtain ⟨t, gs, hsh⟩ := chunkByAdj_cons_shape R x l
    rw [hsh]; exact List.cons_ne_nil _ _

lemma chunkCons_append {α : Type} (R : α → α → Bool) (x : α)
    (cs ds : List (α × List α)) (h : cs ≠ []) :
    chunkCons R x (cs ++ ds) = chunkCons R x cs ++ ds := by
  cases cs with
  | nil => exact absurd rfl h
  | cons c rest =>
    obtain ⟨e, g⟩ := c
    by_cases hR : R x e <;> simp [chunkCons, hR]

lemma chunkByAdj_boundary {α : Type} (R : α → α → Bool) (d e : α)
    (hR : R d e = false) (l₁ l₂ : List α) :
    chunkByAdj R (l₁ ++ d :: e :: l₂) =
      chunkByAdj R (l₁ ++ [d]) ++ chunkByAdj R (e :: l₂) := by
  induction l₁ with
  | nil =>
    obtain ⟨t, gs, hsh⟩ := chunkByAdj_cons_shape R e l₂
    simp only [List.nil_append]
    rw [chunkByAdj_cons, hsh]
    simp [chunkCons, hR, chunkByAdj, hsh]
  | cons x l₁ ih =>
    have hne : chunkByAdj R (l₁ ++ [d]) ≠ [] :=
      chunkByAdj_ne_nil R _ (by simp)
    calc chunkByAdj R ((x :: l₁) ++ d :: e :: l₂)
        = chunkCons R x (chunkByAdj R (l₁ ++ d :: e :: l₂)) := rfl
      _ = chunkCons R x (chunkByAdj R (l₁ ++ [d]) ++ chunkByAdj R (e :: l₂)) := by rw [ih]
      _ = chunkCons R x (chunkByAdj R (l₁ ++ [d])) ++ chunkByAdj R (e :: l₂) :=
          chunkCons_append R x _ _ hne
      _ = chunkByAdj R ((x :: l₁) ++ [d]) ++ chunkByAdj R (e :: l₂) := rfl

lemma chunkByAdj_same_chunk {α : Type} (R : α → α → Bool) (d e : α)
    (hR : R d e = true) (l₁ l₂ : List α) :
    ∃ c ∈ chunkByAdj R (l₁ ++ d :: e :: l₂), d ∈ grpList c ∧ e ∈ grpList c := by
  induction l₁ with
  | nil =>
    obtain ⟨t, gs, hsh⟩ := chunkByAdj_cons_shape R e l₂
    refine ⟨(d, e :: t), ?_, by simp [grpList], by simp [grpList]⟩
    show (d, e :: t) ∈ chunkByAdj R (d :: e :: l₂)
    rw [chunkByAdj_cons, hsh]
    simp [chunkCons, hR]
  | cons x l₁ ih =>
    obtain ⟨c, hc, hd, he⟩ := ih
    rw [show (x :: l₁) ++ d :: e :: l₂ = x :: (l₁ ++ d :: e :: l₂) from rfl,
      chunkByAdj_cons]
    rcases hcs : chunkByAdj R (l₁ ++ d :: e :: l₂) with _ | ⟨⟨e₀, g₀⟩, rest⟩
    · rw [hcs] at hc; exact absurd hc (List.not_mem_nil _)
    · rw [hcs] at hc
      rcases List.mem_cons.1 hc with hceq | hcrest
      · by_cases hR' : R x e₀
        · refine ⟨(x, e₀ :: g₀), by simp [chunkCons, hR'], ?_, ?_⟩
          · subst hceq
            exact List.mem_cons_of_mem x hd
          · subst hceq
            exact List.mem_cons_of_mem x he
        · exact ⟨c, by simp [chunkCons, hR', hceq], hd, he⟩
      · by_cases hR' : R x e₀
        · exact ⟨c, by simp [chunkCons, hR', List.mem_cons_of_mem, hcrest], hd, he⟩
        · exact ⟨c, by simp [chunkCons, hR', hcrest], hd, he⟩

lemma pairwise_heads {α : Type} {P : α → α → Prop} :
    ∀ cs : List (α × List α), (cs.flatMap grpList).Pairwise P →
      cs.Pairwise (fun c d => P c.1 d.1) := by
  intro cs
  induction cs with
  | nil => intro _; exact List.Pairwise.nil
  | cons c rest ih =>
    intro h
    rw [List.flatMap_cons, List.pairwise_append] at h
    obtain ⟨_, h₂, h₃⟩ := h
    refine List.Pairwise.cons ?_ (ih h₂)
    intro c' hc'
    exact h₃ c.1 (by simp [grpList]) c'.1
      (List.mem_flatMap.2 ⟨c', hc', by simp [grpList]⟩)

lemma sum_chunks_map {α : Type} (f : α → ℚ) (cs : List (α × List α)) :
    (cs.map (fun c => ((grpList c).map f).sum)).sum = ((cs.flatMap grpList).map f).sum := by
  induction cs with
  | nil => simp
  | cons c rest ih => simp [List.flatMap_cons, ih]

-- ### Rounding lemmas

lemma jsRound_intCast (k : ℤ) : jsRound (k : ℚ) = k := by
  unfold jsRound
  rw [add_comm, Int.floor_add_int]
  norm_num

lemma round2_cent (k : ℤ) : round2 ((k : ℚ) / 100) = (k : ℚ) / 100 := by
  unfold round2
  rw [div_mul_cancel₀ (k : ℚ) (by norm_num : (100 : ℚ) ≠ 0), jsRound_intCast]

lemma round2_nonneg (q : ℚ) (h : 0 ≤ q) : 0 ≤ round2 q := by
  unfold round2 jsRound
  have : (0 : ℤ) ≤ ⌊q * 100 + 1/2⌋ := by
    apply Int.le_floor.2
    push_cast
    nlinarith
  positivity

-- ### Stable sorting: two sorted permutations with pairwise-distinct keys agree

lemma getLastD_mem_of_ne_nil {α : Type} :
    ∀ (l : List α) (d : α), l ≠ [] → l.getLastD d ∈ l := by
  intro l
  induction l with
  | nil => intro d h; exact absurd rfl h
  | cons a t ih =>
    intro d _
    cases t with
    | nil => simp
    | cons b t' =>
      rw [List.getLastD_cons]
      exact List.mem_cons_of_mem a (ih d (List.cons_ne_nil b t'))

lemma sorted_head_le_getLast (a : TessieDrive) (l : List TessieDrive)
    (h : (a :: l).Pairwise driveLE) :
    a.started_at ≤ ((a :: l).getLastD defaultDrive).started_at := by
  cases l with
  | nil => exact le_refl _
  | cons b t =>
    have hmem : (b :: t).getLastD defaultDrive ∈ b :: t :=
      getLastD_mem_of_ne_nil (b :: t) defaultDrive (List.cons_ne_nil b t)
    have := (List.pairwise_cons.1 h).1 _ hmem
    simpa [List.getLastD_cons] using this

lemma eq_of_perm_sorted_nodup_keys :
    ∀ {l₁ l₂ : List TessieDrive}, l₁.Perm l₂ →
      l₁.Pairwise driveLE → l₂.Pairwise driveLE →
      (l₁.map (·.started_at)).Nodup → l₁ = l₂ := by
  intro l₁
  induction l₁ with
  | nil =>
    intro l₂ p _ _ _
    exact List.Perm.nil_eq p
  | cons a t₁ ih =>
    intro l₂ p s₁ s₂ nd
    cases l₂ with
    | nil => exact absurd p.symm (by simp)
    | cons b t₂ =>
      by_cases hab : a = b
      · subst hab
        have ht : t₁.Perm t₂ := p.cons_inv
        have := ih ht (List.pairwise_cons.1 s₁).2 (List.pairwise_cons.1 s₂).2
          (List.nodup_cons.1 nd).2
        rw [this]
      · have ha₂ : a ∈ b :: t₂ := p.mem_iff.1 (List.mem_cons_self a t₁)
        have ha : a ∈ t₂ := by
          rcases List.mem_cons.1 ha₂ with h | h
          · exact absurd h hab
          · exact h
        have hb₁ : b ∈ a :: t₁ := p.mem_iff.2 (List.mem_cons_self b t₂)
        have hb : b ∈ t₁ := by
          rcases List.mem_cons.1 hb₁ with h | h
          · exact absurd h.symm hab
          · exact h
        have h₁ : driveLE a b := (List.pairwise_cons.1 s₁).1 b hb
        have h₂ : driveLE b a := (List.pairwise_cons.1 s₂).1 a ha
        have hkey : a.started_at = b.started_at := le_antisymm h₁ h₂
        have nd₂ : ((b :: t₂).map (·.started_at)).Nodup :=
          ((p.map (·.started_at)).nodup_iff).1 nd
        have hhead : b.started_at ∉ (t₂.map (·.started_at)) :=
          (List.nodup_cons.1 (by simpa using nd₂)).1
        exact absurd (by
          rw [← hkey]
          exact List.mem_map_of_mem (·.started_at) ha) hhead

-- ### The grouping view of `mergeDrives`

open DriveAnalyzer

lemma mergeDrives_eq_chunks (drives : List TessieDrive) :
    mergeDrives drives = (chunkByAdj mergeAdj (sortDrives drives)).map createMergedDrive := by
  cases drives with
  | nil => rfl
  | cons d l => simp [mergeDrives]

lemma createMergedDrive_originalDriveIds (g : TessieDrive × List TessieDrive) :
    (createMergedDrive g).originalDriveIds = (grpList g).map (·.id) := rfl

lemma createMergedDrive_started_at (g : TessieDrive × List TessieDrive) :
    (createMergedDrive g).started_at = g.1.started_at := rfl

lemma createMergedDrive_total_distance (g : TessieDrive × List TessieDrive) :
    (createMergedDrive g).total_distance =
      round2 (((grpList g).map (·.odometer_distance)).sum) := rfl

lemma flatMap_create_ids (cs : List (TessieDrive × List TessieDrive)) :
    (cs.map createMergedDrive).flatMap (·.originalDriveIds) =
      (cs.flatMap grpList).map (·.id) := by
  induction cs with
  | nil => rfl
  | cons c rest ih =>
    simp only [List.map_cons, List.flatMap_cons, createMergedDrive_originalDriveIds,
      List.map_append, ih]

lemma sortDrives_perm (drives : List TessieDrive) : (sortDrives drives).Perm drives :=
  List.perm_insertionSort driveLE drives

lemma sortDrives_sorted (drives : List TessieDrive) :
    (sortDrives drives).Pairwise driveLE :=
  List.sorted_insertionSort driveLE drives

lemma sum_cents (f : TessieDrive → ℚ) :
    ∀ l : List TessieDrive, (∀ d ∈ l, ∃ k : ℤ, f d = (k : ℚ) / 100) →
      ∃ K : ℤ, (l.map f).sum = (K : ℚ) / 100 := by
  intro l
  induction l with
  | nil => intro _; exact ⟨0, by simp⟩
  | cons d t ih =>
    intro h
    obtain ⟨k, hk⟩ := h d (List.mem_cons_self d t)
    obtain ⟨K, hK⟩ := ih (fun x hx => h x (List.mem_cons_of_mem d hx))
    refine ⟨k + K, ?_⟩
    rw [List.map_cons, List.sum_cons, hk, hK]
    push_cast
    ring

/-- C1 (amended): for well-formed input (pairwise-distinct drive ids),
every input drive's identifier appears exactly once across the outputs'
`originalDriveIds`; the outputs are ordered by start time; the empty input
yields the empty output; and — provided every input `odometer_distance` is a
whole multiple of 0.01 (each output's `total_distance` is its group's sum
rounded to 2 decimals, so sub-cent distances can perturb the total) — the sum
of the outputs' `total_distance` equals the sum of the inputs'
`odometer_distance`. -/
theorem mergeDrives_coverage_order_sum (drives : List TessieDrive)
    (hid : (drives.map (·.id)).Nodup)
    (hcent : ∀ d ∈ drives, ∃ k : ℤ, d.odometer_distance = (k : ℚ) / 100) :
    (∀ d ∈ drives,
      ((mergeDrives drives).flatMap (·.originalDriveIds)).count d.id = 1) ∧
    (mergeDrives drives).Pairwise (fun a b => a.started_at ≤ b.started_at) ∧
    ((mergeDrives drives).map (·.total_distance)).sum =
      (drives.map (·.odometer_distance)).sum ∧
    mergeDrives [] = [] := by
  have hperm : (sortDrives drives).Perm drives := sortDrives_perm drives
  have hsorted : (sortDrives drives).Pairwise driveLE := sortDrives_sorted drives
  have hjoin : ((chunkByAdj mergeAdj (sortDrives drives)).flatMap grpList) = sortDrives drives :=
    chunkByAdj_join mergeAdj (sortDrives drives)
  refine ⟨?_, ?_, ?_, rfl⟩
  · intro d hd
    rw [mergeDrives_eq_chunks, flatMap_create_ids, hjoin]
    have hpm : ((sortDrives drives).map (·.id)).Perm (drives.map (·.id)) :=
      hperm.map (·.id)
    rw [hpm.count_eq]
    exact List.count_eq_one_of_mem hid (List.mem_map_of_mem (·.id) hd)
  · rw [mergeDrives_eq_chunks]
    rw [List.pairwise_map]
    have : ((chunkByAdj mergeAdj (sortDrives drives)).flatMap grpList).Pairwise driveLE := by
      rw [hjoin]; exact hsorted
    have hh := pairwise_heads _ this
    exact hh.imp (fun h => by
      simpa [createMergedDrive_started_at] using h)
  · rw [mergeDrives_eq_chunks, List.map_map]
    have hcent' : ∀ c ∈ chunkByAdj mergeAdj (sortDrives drives),
        (createMergedDrive c).total_distance =
          ((grpList c).map (·.odometer_distance)).sum := by
      intro c hc
      rw [createMergedDrive_total_distance]
      have hmem : ∀ d ∈ grpList c, ∃ k : ℤ, d.odometer_distance = (k : ℚ) / 100 := by
        intro d hdc
        have : d ∈ sortDrives drives := by
          rw [← hjoin]
          exact List.mem_flatMap.2 ⟨c, hc, hdc⟩
        exact hcent d (hperm.mem_iff.1 this)
      obtain ⟨K, hK⟩ := sum_cents _ (grpList c) hmem
      rw [hK, round2_cent]
    rw [List.map_congr_left (fun c hc => by
      rw [Function.comp_apply, hcent' c hc])]
    rw [sum_chunks_map, hjoin]
    exact (hperm.map (·.odometer_distance)).sum_eq

/-- Witness for C1 at a two-drive input with distinct ids and distances in
whole cents. -/
def c1DriveA : TessieDrive :=
  { id := 1, started_at := 0, ended_at := 600, starting_location := "A",
    ending_location := "B", starting_battery := 80, ending_battery := 70,
    odometer_distance := 3/2, average_speed := 30, max_speed := 40 }

def c1DriveB : TessieDrive :=
  { id := 2, started_at := 4000, ended_at := 4600, starting_location := "B",
    ending_location := "C", starting_battery := 70, ending_battery := 60,
    odometer_distance := 5/4, average_speed := 30, max_speed := 40 }

theorem mergeDrives_coverage_order_sum_witness :
    ([c1DriveA, c1DriveB].map (·.id)).Nodup ∧
    ((∀ d ∈ [c1DriveA, c1DriveB],
      ((mergeDrives [c1DriveA, c1DriveB]).flatMap (·.originalDriveIds)).count d.id = 1) ∧
    (mergeDrives [c1DriveA, c1DriveB]).Pairwise (fun a b => a.started_at ≤ b.started_at) ∧
    ((mergeDrives [c1DriveA, c1DriveB]).map (·.total_distance)).sum =
      ([c1DriveA, c1DriveB].map (·.odometer_distance)).sum ∧
    mergeDrives [] = []) := by
  constructor
  · decide
  · refine mergeDrives_coverage_order_sum [c1DriveA, c1DriveB] (by decide) ?_
    intro d hd
    rcases List.mem_cons.1 hd with h | h
    · exact ⟨150, by rw [h]; norm_num [c1DriveA]⟩
    · rcases List.mem_cons.1 h with h' | h'
      · exact ⟨125, by rw [h']; norm_num [c1DriveB]⟩
      · exact absurd h' (List.not_mem_nil d)

/-- Counterexample drive for C1 as stated: a single well-formed drive whose
odometer distance (0.005 mi) is not a whole multiple of 0.01. -/
def c1CexDrive : TessieDrive :=
  { id := 1, started_at := 0, ended_at := 600, starting_location := "A",
    ending_location := "B", starting_battery := 80, ending_battery := 79,
    odometer_distance := 1/200, average_speed := 0, max_speed := 0 }

/-- Counterexample to C1 as stated: on the well-formed one-drive list
`[c1CexDrive]` the sum of the outputs' `total_distance` (0.01, after
rounding) differs from the sum of the inputs' `odometer_distance` (0.005). -/
theorem mergeDrives_distance_sum_cex :
    ([c1CexDrive].map (·.id)).Nodup ∧
    ((mergeDrives [c1CexDrive]).map (·.total_distance)).sum = 1/100 ∧
    ([c1CexDrive].map (·.odometer_distance)).sum = 1/200 ∧
    ((mergeDrives [c1CexDrive]).map (·.total_distance)).sum ≠
      ([c1CexDrive].map (·.odometer_distance)).sum := by
  have h1 : mergeDrives [c1CexDrive] = [createMergedDrive (c1CexDrive, [])] := by
    rw [mergeDrives_eq_chunks]
    rfl
  have h2 : (createMergedDrive (c1CexDrive, [])).total_distance = 1/100 := by
    rw [createMergedDrive_total_distance]
    have : ((grpList (c1CexDrive, [])).map (·.odometer_distance)).sum = 1/200 := by
      simp [grpList, c1CexDrive]
    rw [this]
    unfold round2 jsRound
    rw [show (1 : ℚ)/200 * 100 + 1/2 = 1 by norm_num]
    norm_num
  refine ⟨by decide, ?_, by simp [c1CexDrive], ?_⟩
  · rw [h1]; simp [h2]
  · rw [h1]
    simp only [List.map_cons, List.map_nil, List.sum_cons, List.sum_nil, add_zero, h2]
    simp only [c1CexDrive]
    norm_num

-- ### C2: adjacent drives share a merged drive iff the merge rule accepts them

lemma mergeAdj_iff (d e : TessieDrive) :
    mergeAdj d e = true ↔
      (gapMinutesQ d e < 7 ∨ e.starting_battery - d.ending_battery > 5) := by
  unfold mergeAdj shouldMergeDrives
  by_cases h1 : gapMinutesQ d e < 7
  · simp [h1]
  · by_cases h2 : e.starting_battery - d.ending_battery > 5 <;> simp [h1, h2]

lemma sortDrives_pair (d1 d2 : TessieDrive) (h : d1.started_at ≤ d2.started_at) :
    sortDrives [d1, d2] = [d1, d2] := by
  unfold sortDrives
  simp [List.insertionSort, List.orderedInsert, driveLE, h]

lemma chunkByAdj_pair (d1 d2 : TessieDrive) :
    chunkByAdj mergeAdj [d1, d2] =
      if mergeAdj d1 d2 then [(d1, [d2])] else [(d1, []), (d2, [])] := by
  show chunkCons mergeAdj d1 (chunkCons mergeAdj d2 []) = _
  by_cases h : mergeAdj d1 d2 <;> simp [chunkCons, h]

/-- C2: in the start-time-sorted list, two consecutive drives `d`, `e` end up
in the same `MergedDrive` if and only if the gap `e.started_at - d.ended_at`
is below 7 minutes or the battery rose more than 5 percentage points across
the gap; in particular a two-drive list with a 5-minute gap merges into one
`MergedDrive`, and one with a 30-minute gap and no battery increase yields
two. -/
theorem mergeDrives_adjacent_merge_iff :
    (∀ (drives : List TessieDrive), (drives.map (·.id)).Nodup →
      ∀ (l₁ l₂ : List TessieDrive) (d e : TessieDrive),
        sortDrives drives = l₁ ++ d :: e :: l₂ →
        ((∃ m ∈ mergeDrives drives,
            d.id ∈ m.originalDriveIds ∧ e.id ∈ m.originalDriveIds) ↔
          (gapMinutesQ d e < 7 ∨ e.starting_battery - d.ending_battery > 5))) ∧
    (∀ d1 d2 : TessieDrive, d1.started_at ≤ d2.started_at →
      d2.started_at - d1.ended_at = 300 → (mergeDrives [d1, d2]).length = 1) ∧
    (∀ d1 d2 : TessieDrive, d1.started_at ≤ d2.started_at →
      d2.started_at - d1.ended_at = 1800 →
      d2.starting_battery ≤ d1.ending_battery → (mergeDrives [d1, d2]).length = 2) := by
  refine ⟨?_, ?_, ?_⟩
  · intro drives hid l₁ l₂ d e hs
    rw [← mergeAdj_iff]
    have hnodup : ((l₁ ++ d :: e :: l₂).map (·.id)).Nodup := by
      rw [← hs]
      exact ((sortDrives_perm drives).map (·.id)).nodup_iff.2 hid
    have hsplit : l₁ ++ d :: e :: l₂ = (l₁ ++ [d]) ++ (e :: l₂) := by
      simp
    constructor
    · intro ⟨m, hm, hdm, hem⟩
      by_contra hfalse
      have hR : mergeAdj d e = false := by
        cases h : mergeAdj d e
        · rfl
        · exact absurd h hfalse
      rw [mergeDrives_eq_chunks, hs, chunkByAdj_boundary mergeAdj d e hR l₁ l₂,
        List.map_append] at hm
      have hdisj : ((l₁ ++ [d]).map (·.id)).Disjoint ((e :: l₂).map (·.id)) := by
        have := hnodup
        rw [hsplit, List.map_append, List.nodup_append] at this
        exact this.2.2
      rcases List.mem_append.1 hm with hmA | hmB
      · obtain ⟨c, hc, hmc⟩ := List.mem_map.1 hmA
        rw [← hmc, createMergedDrive_originalDriveIds] at hem
        have hsub : e.id ∈ (l₁ ++ [d]).map (·.id) := by
          obtain ⟨x, hx, hxid⟩ := List.mem_map.1 hem
          have : x ∈ l₁ ++ [d] := by
            rw [← chunkByAdj_join mergeAdj (l₁ ++ [d])]
            exact List.mem_flatMap.2 ⟨c, hc, hx⟩
          rw [← hxid]
          exact List.mem_map_of_mem (·.id) this
        exact hdisj hsub (List.mem_map_of_mem (·.id) (List.mem_cons_self e l₂))
      · obtain ⟨c, hc, hmc⟩ := List.mem_map.1 hmB
        rw [← hmc, createMergedDrive_originalDriveIds] at hdm
        have hsub : d.id ∈ (e :: l₂).map (·.id) := by
          obtain ⟨x, hx, hxid⟩ := List.mem_map.1 hdm
          have : x ∈ e :: l₂ := by
            rw [← chunkByAdj_join mergeAdj (e :: l₂)]
            exact List.mem_flatMap.2 ⟨c, hc, hx⟩
          rw [← hxid]
          exact List.mem_map_of_mem (·.id) this
        exact hdisj (List.mem_map_of_mem (·.id)
          (List.mem_append_right l₁ (List.mem_cons_self d []))) hsub
    · intro hR
      obtain ⟨c, hc, hdc, hec⟩ := chunkByAdj_same_chunk mergeAdj d e hR l₁ l₂
      refine ⟨createMergedDrive c, ?_, ?_, ?_⟩
      · rw [mergeDrives_eq_chunks, hs]
        exact List.mem_map_of_mem createMergedDrive hc
      · rw [createMergedDrive_originalDriveIds]
        exact List.mem_map_of_mem (·.id) hdc
      · rw [createMergedDrive_originalDriveIds]
        exact List.mem_map_of_mem (·.id) hec
  · intro d1 d2 hle hgap
    have hadj : mergeAdj d1 d2 = true := by
      rw [mergeAdj_iff]
      left
      unfold gapMinutesQ
      rw [hgap]
      norm_num
    rw [mergeDrives_eq_chunks, sortDrives_pair d1 d2 hle, chunkByAdj_pair, if_pos hadj]
    rfl
  · intro d1 d2 hle hgap hbat
    have hadj : mergeAdj d1 d2 = false := by
      rw [Bool.eq_false_iff]
      intro h
      rcases (mergeAdj_iff d1 d2).1 h with hg | hb
      · unfold gapMinutesQ at hg
        rw [hgap] at hg
        norm_num at hg
      · linarith
    rw [mergeDrives_eq_chunks, sortDrives_pair d1 d2 hle, chunkByAdj_pair, if_neg (by simp [hadj])]
    rfl

def c2FastA : TessieDrive :=
  { id := 1, started_at := 0, ended_at := 600, starting_location := "A",
    ending_location := "B", starting_battery := 80, ending_battery := 70,
    odometer_distance := 3, average_speed := 30, max_speed := 40 }

def c2FastB : TessieDrive :=
  { id := 2, started_at := 900, ended_at := 1500, starting_location := "B",
    ending_location := "C", starting_battery := 70, ending_battery := 60,
    odometer_distance := 3, average_speed := 30, max_speed := 40 }

def c2SlowB : TessieDrive :=
  { id := 2, started_at := 2400, ended_at := 3000, starting_location := "B",
    ending_location := "C", starting_battery := 65, ending_battery := 60,
    odometer_distance := 3, average_speed := 30, max_speed := 40 }

/-- Witness for C2: the adjacency characterization instantiated on a sorted
two-drive list, plus the concrete 5-minute-gap (one output) and
30-minute-gap (two outputs) scenarios. -/
theorem mergeDrives_adjacent_merge_iff_witness :
    ((∃ m ∈ mergeDrives [c2FastA, c2FastB],
        c2FastA.id ∈ m.originalDriveIds ∧ c2FastB.id ∈ m.originalDriveIds) ↔
      (gapMinutesQ c2FastA c2FastB < 7 ∨
        c2FastB.starting_battery - c2FastA.ending_battery > 5)) ∧
    (mergeDrives [c2FastA, c2FastB]).length = 1 ∧
    (mergeDrives [c2FastA, c2SlowB]).length = 2 :=
  ⟨mergeDrives_adjacent_merge_iff.1 [c2FastA, c2FastB] (by decide) [] [] c2FastA c2FastB
      (by rw [sortDrives_pair c2FastA c2FastB (by decide)]; rfl),
   mergeDrives_adjacent_merge_iff.2.1 c2FastA c2FastB (by decide) (by decide),
   mergeDrives_adjacent_merge_iff.2.2 c2FastA c2SlowB (by decide) (by decide)
      (by norm_num [c2FastA, c2SlowB])⟩

-- ### C8: determinism and reversal

def c8Tie1 : TessieDrive :=
  { id := 1, started_at := 0, ended_at := 60, starting_location := "A",
    ending_location := "B", starting_battery := 80, ending_battery := 79,
    odometer_distance := 1, average_speed := 20, max_speed := 30 }

def c8Tie2 : TessieDrive :=
  { id := 2, started_at := 0, ended_at := 60, starting_location := "C",
    ending_location := "D", starting_battery := 70, ending_battery := 69,
    odometer_distance := 1, average_speed := 20, max_speed := 30 }

lemma c8_mergeAdj_tie12 : mergeAdj c8Tie1 c8Tie2 = true := by
  rw [mergeAdj_iff]
  left
  norm_num [gapMinutesQ, c8Tie1, c8Tie2]

lemma c8_mergeAdj_tie21 : mergeAdj c8Tie2 c8Tie1 = true := by
  rw [mergeAdj_iff]
  left
  norm_num [gapMinutesQ, c8Tie1, c8Tie2]

/-- Counterexample to C8 as stated: with two drives sharing `started_at`, the
stable sort preserves the (reversed) input order, so `mergeDrives` on the
reversed list yields a `MergedDrive` with the member ids in the opposite
order — the outputs differ. -/
theorem mergeDrives_reverse_tie_cex :
    (mergeDrives [c8Tie1, c8Tie2]).map (·.originalDriveIds) = [[1, 2]] ∧
    (mergeDrives ([c8Tie1, c8Tie2].reverse)).map (·.originalDriveIds) = [[2, 1]] ∧
    mergeDrives ([c8Tie1, c8Tie2].reverse) ≠ mergeDrives [c8Tie1, c8Tie2] := by
  have h1 : mergeDrives [c8Tie1, c8Tie2] = [createMergedDrive (c8Tie1, [c8Tie2])] := by
    rw [mergeDrives_eq_chunks, sortDrives_pair c8Tie1 c8Tie2 (by decide),
      chunkByAdj_pair, if_pos c8_mergeAdj_tie12]
    rfl
  have h2 : mergeDrives ([c8Tie1, c8Tie2].reverse) =
      [createMergedDrive (c8Tie2, [c8Tie1])] := by
    rw [show [c8Tie1, c8Tie2].reverse = [c8Tie2, c8Tie1] from rfl,
      mergeDrives_eq_chunks, sortDrives_pair c8Tie2 c8Tie1 (by decide),
      chunkByAdj_pair, if_pos c8_mergeAdj_tie21]
    rfl
  refine ⟨by rw [h1]; rfl, by rw [h2]; rfl, ?_⟩
  intro h
  have := congrArg (List.map (·.originalDriveIds)) h
  rw [h1, h2] at this
  simp [createMergedDrive_originalDriveIds, grpList, c8Tie1, c8Tie2] at this

/-- C8 (amended): `mergeDrives` is deterministic (equal outputs on equal
inputs), and reversing the input leaves the output unchanged provided the
drives' start times are pairwise distinct (with tied start times the stable
sort preserves the input order of the tied drives, so the grouping order can
differ). -/
theorem mergeDrives_deterministic_reverse (drives : List TessieDrive) :
    mergeDrives drives = mergeDrives drives ∧
    ((drives.map (·.started_at)).Nodup →
      mergeDrives drives.reverse = mergeDrives drives) := by
  refine ⟨rfl, fun hnd => ?_⟩
  rw [mergeDrives_eq_chunks, mergeDrives_eq_chunks]
  have hperm : (sortDrives drives.reverse).Perm (sortDrives drives) :=
    (sortDrives_perm _).trans ((drives.reverse_perm).trans (sortDrives_perm drives).symm)
  have hnd' : ((sortDrives drives.reverse).map (·.started_at)).Nodup := by
    refine (((sortDrives_perm drives.reverse).map (·.started_at)).nodup_iff).2 ?_
    exact ((drives.reverse_perm.map (·.started_at)).nodup_iff).2 hnd
  rw [eq_of_perm_sorted_nodup_keys hperm (sortDrives_sorted _) (sortDrives_sorted _) hnd']

def c8Sep1 : TessieDrive :=
  { id := 1, started_at := 0, ended_at := 60, starting_location := "A",
    ending_location := "B", starting_battery := 80, ending_battery := 79,
    odometer_distance := 1, average_speed := 20, max_speed := 30 }

def c8Sep2 : TessieDrive :=
  { id := 2, started_at := 100, ended_at := 160, starting_location := "B",
    ending_location := "C", starting_battery := 79, ending_battery := 78,
    odometer_distance := 1, average_speed := 20, max_speed := 30 }

/-- Witness for C8 on a list with pairwise-distinct start times. -/
theorem mergeDrives_deterministic_reverse_witness :
    ([c8Sep1, c8Sep2].map (·.started_at)).Nodup ∧
    mergeDrives ([c8Sep1, c8Sep2].reverse) = mergeDrives [c8Sep1, c8Sep2] :=
  ⟨by decide, (mergeDrives_deterministic_reverse [c8Sep1, c8Sep2]).2 (by decide)⟩

-- ### C7: which analyzers leave the caller's array untouched

def c7D1 : TessieDrive :=
  { id := 1, started_at := 10, ended_at := 20, starting_location := "A",
    ending_location := "B", starting_battery := 80, ending_battery := 79,
    odometer_distance := 1, average_speed := 20, max_speed := 30 }

def c7D2 : TessieDrive :=
  { id := 2, started_at := 5, ended_at := 9, starting_location := "B",
    ending_location := "C", starting_battery := 79, ending_battery := 78,
    odometer_distance := 1, average_speed := 20, max_speed := 30 }

def c7D3 : TessieDrive :=
  { id := 3, started_at := 30, ended_at := 40, starting_location := "C",
    ending_location := "D", starting_battery := 78, ending_battery := 77,
    odometer_distance := 1, average_speed := 20, max_speed := 30 }

def c7D4 : TessieDrive :=
  { id := 4, started_at := 50, ended_at := 60, starting_location := "D",
    ending_location := "E", starting_battery := 77, ending_battery := 76,
    odometer_distance := 1, average_speed := 20, max_speed := 30 }

def c7D5 : TessieDrive :=
  { id := 5, started_at := 70, ended_at := 80, starting_location := "E",
    ending_location := "F", starting_battery := 76, ending_battery := 75,
    odometer_distance := 1, average_speed := 20, max_speed := 30 }

def c7Input : List TessieDrive := [c7D1, c7D2, c7D3, c7D4, c7D5]

/-- Counterexample to C7 as stated: `analyzeEfficiencyTrends` executes
`drives.sort(...)` on the caller's array itself (no copy), so on an unsorted
5-drive list the caller's array is reordered after the call. -/
theorem analyzeEfficiencyTrends_mutation_cex :
    (EfficiencyAnalyzer.analyzeEfficiencyTrendsInputAfter c7Input).map (·.id) =
      [2, 1, 3, 4, 5] ∧
    c7Input.map (·.id) = [1, 2, 3, 4, 5] ∧
    EfficiencyAnalyzer.analyzeEfficiencyTrendsInputAfter c7Input ≠ c7Input := by
  refine ⟨by decide, by decide, ?_⟩
  intro h
  have := congrArg (List.map (·.id)) h
  rw [show (EfficiencyAnalyzer.analyzeEfficiencyTrendsInputAfter c7Input).map (·.id) =
    [2, 1, 3, 4, 5] by decide] at this
  rw [show c7Input.map (·.id) = [1, 2, 3, 4, 5] by decide] at this
  simp at this

/-- C7 (amended): `mergeDrives` (which sorts a copy) and `analyzeCommutes`
(which only reads the input) leave the caller's array unchanged;
`analyzeEfficiencyTrends` sorts the caller's array in place once it holds at
least 5 drives, preserving the elements as a multiset but not necessarily
their order. -/
theorem analyzers_input_after (drives : List TessieDrive) :
    mergeDrivesInputAfter drives = drives ∧
    CommuteAnalyzer.analyzeCommutesInputAfter drives = drives ∧
    (EfficiencyAnalyzer.analyzeEfficiencyTrendsInputAfter drives).Perm drives := by
  refine ⟨rfl, rfl, ?_⟩
  unfold EfficiencyAnalyzer.analyzeEfficiencyTrendsInputAfter
  by_cases h : drives.length < 5
  · rw [if_pos h]
  · rw [if_neg h]
    exact sortDrives_perm drives

-- ### C9: fewer than 5 drives yield the explicit empty result

/-- C9: with fewer than 5 drives `analyzeEfficiencyTrends` returns (it is a
total function — nothing is thrown) the `emptyAnalysis` record: all numeric
fields zero, all three trend confidences `low`, and the human-readable
insufficient-data reason among the recommendations. -/
theorem analyzeEfficiencyTrends_insufficient_data (nowMs tzShiftSec : ℤ)
    (drives : List TessieDrive) (h : drives.length < 5) :
    EfficiencyAnalyzer.analyzeEfficiencyTrends nowMs tzShiftSec drives =
      EfficiencyAnalyzer.emptyAnalysis
        ("Insufficient driving data for trend analysis (minimum 5 drives required)") ∧
    (let r := EfficiencyAnalyzer.analyzeEfficiencyTrends nowMs tzShiftSec drives
    r.current_period.avg_efficiency = 0 ∧
    r.current_period.total_miles = 0 ∧
    r.current_period.total_drives = 0 ∧
    r.current_period.range_best = 0 ∧
    r.current_period.range_worst = 0 ∧
    r.trends.weekly.confidence = EfficiencyAnalyzer.Confidence.low ∧
    r.trends.monthly.confidence = EfficiencyAnalyzer.Confidence.low ∧
    r.trends.seasonal.confidence = EfficiencyAnalyzer.Confidence.low ∧
    r.trends.weekly.trend_percentage = 0 ∧
    r.trends.weekly.avg_efficiency = 0 ∧
    r.trends.weekly.best_efficiency = 0 ∧
    r.trends.weekly.worst_efficiency = 0 ∧
    r.factors_analysis.weather_impact.hot_weather_penalty = 0 ∧
    r.factors_analysis.weather_impact.cold_weather_penalty = 0 ∧
    r.factors_analysis.speed_impact.highway_efficiency = 0 ∧
    r.factors_analysis.speed_impact.city_efficiency = 0 ∧
    ("Insufficient driving data for trend analysis (minimum 5 drives required)") ∈
      r.recommendations) := by
  have heq : EfficiencyAnalyzer.analyzeEfficiencyTrends nowMs tzShiftSec drives =
      EfficiencyAnalyzer.emptyAnalysis
        ("Insufficient driving data for trend analysis (minimum 5 drives required)") := by
    unfold EfficiencyAnalyzer.analyzeEfficiencyTrends
    rw [if_pos h]
  refine ⟨heq, ?_⟩
  rw [heq]
  simp [EfficiencyAnalyzer.emptyAnalysis]

def c9D (n : ℕ) : TessieDrive :=
  { id := n, started_at := (n : ℤ) * 1000, ended_at := (n : ℤ) * 1000 + 500,
    starting_location := "A", ending_location := "B", starting_battery := 80,
    ending_battery := 75, odometer_distance := 10, average_speed := 30,
    max_speed := 40 }

/-- Witness for C9 at a list of exactly 4 drives. -/
theorem analyzeEfficiencyTrends_insufficient_data_witness :
    [c9D 1, c9D 2, c9D 3, c9D 4].length < 5 ∧
    EfficiencyAnalyzer.analyzeEfficiencyTrends 0 0 [c9D 1, c9D 2, c9D 3, c9D 4] =
      EfficiencyAnalyzer.emptyAnalysis
        ("Insufficient driving data for trend analysis (minimum 5 drives required)") :=
  ⟨by decide,
   (analyzeEfficiencyTrends_insufficient_data 0 0 [c9D 1, c9D 2, c9D 3, c9D 4]
     (by decide)).1⟩

-- ### C6: the plausibility filter of the efficiency normalization

/-- C6 (amended): the normalization step retains exactly the data points
whose consumption rate lies strictly between 0 and 60 kWh/100mi — the
interval is open at 0, so a point with rate exactly 0 is discarded. -/
theorem convertToDataPoints_retention (drives : List TessieDrive) :
    EfficiencyAnalyzer.convertToDataPoints drives =
      (drives.filter (fun d =>
        decide (0 < (EfficiencyAnalyzer.toDataPoint d).efficiency_kwh_per_100mi) &&
          decide ((EfficiencyAnalyzer.toDataPoint d).efficiency_kwh_per_100mi < 60))).map
        EfficiencyAnalyzer.toDataPoint ∧
    (∀ dp ∈ EfficiencyAnalyzer.convertToDataPoints drives,
      0 < dp.efficiency_kwh_per_100mi ∧ dp.efficiency_kwh_per_100mi < 60) := by
  constructor
  · unfold EfficiencyAnalyzer.convertToDataPoints
    induction drives with
    | nil => rfl
    | cons d t ih =>
      rw [List.map_cons, List.filter_cons, List.filter_cons]
      by_cases h1 : 0 < (EfficiencyAnalyzer.toDataPoint d).efficiency_kwh_per_100mi
      · by_cases h2 : (EfficiencyAnalyzer.toDataPoint d).efficiency_kwh_per_100mi < 60
        · simp [h1, h2, ih]
        · simp [h1, h2, ih]
      · simp [h1, ih]
  · intro dp hdp
    unfold EfficiencyAnalyzer.convertToDataPoints at hdp
    have := (List.mem_filter.1 hdp).2
    simp only [Bool.and_eq_true, decide_eq_true_eq] at this
    exact this

/-- Drive whose computed consumption rate is exactly 0 (no battery used over
a positive distance). -/
def c6ZeroDrive : TessieDrive :=
  { id := 1, started_at := 0, ended_at := 600, starting_location := "A",
    ending_location := "B", starting_battery := 80, ending_battery := 80,
    odometer_distance := 10, average_speed := 30, max_speed := 40 }

lemma c6Zero_eff : (EfficiencyAnalyzer.toDataPoint c6ZeroDrive).efficiency_kwh_per_100mi = 0 := by
  norm_num [EfficiencyAnalyzer.toDataPoint, c6ZeroDrive]

/-- Counterexample to C6 as stated: the point with rate exactly 0 is
discarded, not retained. -/
theorem convertToDataPoints_zero_discarded_cex :
    (EfficiencyAnalyzer.toDataPoint c6ZeroDrive).efficiency_kwh_per_100mi = 0 ∧
    EfficiencyAnalyzer.convertToDataPoints [c6ZeroDrive] = [] := by
  refine ⟨c6Zero_eff, ?_⟩
  unfold EfficiencyAnalyzer.convertToDataPoints
  rw [List.map_cons, List.map_nil, List.filter_cons]
  simp [c6Zero_eff]

/-- Drive with rate 30 kWh/100mi, inside the retained range. -/
def c6GoodDrive : TessieDrive :=
  { id := 2, started_at := 0, ended_at := 600, starting_location := "A",
    ending_location := "B", starting_battery := 80, ending_battery := 76,
    odometer_distance := 10, average_speed := 30, max_speed := 40 }

lemma c6Good_eff : (EfficiencyAnalyzer.toDataPoint c6GoodDrive).efficiency_kwh_per_100mi = 30 := by
  norm_num [EfficiencyAnalyzer.toDataPoint, c6GoodDrive]

lemma c6Good_eval : EfficiencyAnalyzer.convertToDataPoints [c6GoodDrive] =
    [EfficiencyAnalyzer.toDataPoint c6GoodDrive] := by
  unfold EfficiencyAnalyzer.convertToDataPoints
  rw [List.map_cons, List.map_nil, List.filter_cons]
  simp [c6Good_eff]
  norm_num

/-- Witness for C6: a retained in-range point, with the membership hypothesis
discharged concretely. -/
theorem convertToDataPoints_retention_witness :
    EfficiencyAnalyzer.convertToDataPoints [c6GoodDrive] =
      (([c6GoodDrive]).filter (fun d =>
        decide (0 < (EfficiencyAnalyzer.toDataPoint d).efficiency_kwh_per_100mi) &&
          decide ((EfficiencyAnalyzer.toDataPoint d).efficiency_kwh_per_100mi < 60))).map
        EfficiencyAnalyzer.toDataPoint ∧
    EfficiencyAnalyzer.toDataPoint c6GoodDrive ∈
      EfficiencyAnalyzer.convertToDataPoints [c6GoodDrive] ∧
    (0 < (EfficiencyAnalyzer.toDataPoint c6GoodDrive).efficiency_kwh_per_100mi ∧
      (EfficiencyAnalyzer.toDataPoint c6GoodDrive).efficiency_kwh_per_100mi < 60) := by
  have hmem : EfficiencyAnalyzer.toDataPoint c6GoodDrive ∈
      EfficiencyAnalyzer.convertToDataPoints [c6GoodDrive] := by
    rw [c6Good_eval]
    exact List.mem_cons_self _ _
  exact ⟨(convertToDataPoints_retention [c6GoodDrive]).1, hmem,
    (convertToDataPoints_retention [c6GoodDrive]).2
      (EfficiencyAnalyzer.toDataPoint c6GoodDrive) hmem⟩

-- ### C5: the 300-mile / 65 % projection

lemma c5_deficit : TripCalculator.futureChargeDeficit 300 65 = 50 := by
  unfold TripCalculator.futureChargeDeficit
  rw [show (300 : ℚ) / 4 / 75 * 100 * (115/100) - 65 = 50 by norm_num]
  exact max_eq_right (by norm_num)

lemma jsRound_115 : jsRound (65 + max 0 ((300 : ℚ) / 4 / 75 * 100 * (115/100) - 65)) = 115 := by
  rw [show (65 : ℚ) + max 0 ((300 : ℚ) / 4 / 75 * 100 * (115/100) - 65) = ((115 : ℤ) : ℚ) by
    rw [show (300 : ℚ) / 4 / 75 * 100 * (115/100) - 65 = 50 by norm_num,
      max_eq_right (by norm_num : (0:ℚ) ≤ 50)]
    norm_num]
  exact jsRound_intCast 115

/-- Counterexample to C5 as stated: at (300 mi, 65 %) the computed charge
deficit is exactly 50 points — it does not exceed 60, and the strategy chosen
is the home-only branch, not one with supercharger stops. -/
theorem estimateFutureTripCost_deficit_cex :
    TripCalculator.futureChargeDeficit 300 65 = 50 ∧
    ¬ (60 : ℚ) < TripCalculator.futureChargeDeficit 300 65 ∧
    (TripCalculator.estimateFutureTripCost 300 65).strategy =
      ("Charge to 115% at home before departure") := by
  refine ⟨c5_deficit, by rw [c5_deficit]; norm_num, ?_⟩
  show (if (decide ((300 : ℚ) / 4 / 75 * 100 * (115/100) > 65)) = true then
      if max 0 ((300 : ℚ) / 4 / 75 * 100 * (115/100) - 65) ≤ 60 then
        ("Charge to ") ++ toString (jsRound (65 + max 0 ((300 : ℚ) / 4 / 75 * 100 * (115/100) - 65))) ++
          ("% at home before departure")
      else
        ("Charge to 90% at home, then ") ++
          toString (⌈max 0 ((300 : ℚ) / 4 / 75 * 100 * (115/100) - 65) / 50⌉ : ℤ) ++
          (" Supercharger stop") ++
          (if (⌈max 0 ((300 : ℚ) / 4 / 75 * 100 * (115/100) - 65) / 50⌉ : ℤ) > 1 then ("s") else ("")) ++
          (" during trip")
    else
      ("No charging needed - current ") ++ TripCalculator.jsNumToString 65 ++
        ("% is sufficient")) = ("Charge to 115% at home before departure")
  rw [jsRound_115]
  have hmax : max 0 ((300 : ℚ) / 4 / 75 * 100 * (115/100) - 65) = 50 := by
    rw [show (300 : ℚ) / 4 / 75 * 100 * (115/100) - 65 = 50 by norm_num]
    exact max_eq_right (by norm_num)
  rw [if_pos (by norm_num), if_pos (by rw [hmax]; norm_num)]
  rfl

/-- C5 (amended): at (300 mi, 65 %) under default rates the deficit is
exactly 50 points (within the 60-point home-charging limit, so the home-only
branch is taken); the returned plan nevertheless has
`charging_stops_needed = ⌈50/50⌉ = 1 ≥ 1` and `charging_needed = true`. -/
theorem estimateFutureTripCost_300_65_plan :
    TripCalculator.futureChargeDeficit 300 65 = 50 ∧
    TripCalculator.futureChargeDeficit 300 65 ≤ 60 ∧
    (TripCalculator.estimateFutureTripCost 300 65).charging_needed = true ∧
    (TripCalculator.estimateFutureTripCost 300 65).charging_stops_needed = 1 ∧
    1 ≤ (TripCalculator.estimateFutureTripCost 300 65).charging_stops_needed := by
  have hmax : max 0 ((300 : ℚ) / 4 / 75 * 100 * (115/100) - 65) = 50 := by
    rw [show (300 : ℚ) / 4 / 75 * 100 * (115/100) - 65 = 50 by norm_num]
    exact max_eq_right (by norm_num)
  have hstops : (TripCalculator.estimateFutureTripCost 300 65).charging_stops_needed = 1 := by
    show (⌈max 0 ((300 : ℚ) / 4 / 75 * 100 * (115/100) - 65) / 50⌉ : ℤ) = 1
    rw [hmax]
    norm_num
  refine ⟨c5_deficit, by rw [c5_deficit]; norm_num, ?_, hstops, by rw [hstops]⟩
  show decide ((300 : ℚ) / 4 / 75 * 100 * (115/100) > 65) = true
  rw [decide_eq_true_eq]
  norm_num

-- ### C4: cost attribution of unaccounted energy

/-- C4 (amended): `estimateChargingCosts` tops the home bucket up with the
unaccounted energy exactly when the detected charging energy is below **half**
of the total energy; in that case home-bucket kWh plus supercharger-bucket
kWh equals the total energy, and otherwise the two buckets only cover the
detected energy. -/
theorem estimateChargingCosts_topup (drives : List TessieDrive)
    (totalEnergyKwh homeRate superchargerRate : ℚ)
    (hh : homeRate ≠ 0) (_hs : superchargerRate ≠ 0) :
    (TripCalculator.detectedChargingKwh drives homeRate superchargerRate <
        totalEnergyKwh * (1/2) →
      (TripCalculator.estimateChargingCosts drives totalEnergyKwh homeRate
            superchargerRate).electricityCost / homeRate +
        (TripCalculator.estimateChargingCosts drives totalEnergyKwh homeRate
            superchargerRate).chargingStopsCost / superchargerRate = totalEnergyKwh) ∧
    (¬ (TripCalculator.detectedChargingKwh drives homeRate superchargerRate <
        totalEnergyKwh * (1/2)) →
      (TripCalculator.estimateChargingCosts drives totalEnergyKwh homeRate
            superchargerRate).electricityCost / homeRate +
        (TripCalculator.estimateChargingCosts drives totalEnergyKwh homeRate
            superchargerRate).chargingStopsCost / superchargerRate =
        TripCalculator.detectedChargingKwh drives homeRate superchargerRate) := by
  unfold TripCalculator.estimateChargingCosts
  constructor
  · intro hlt
    simp only [if_pos hlt]
    rw [add_div, mul_div_cancel_right₀ _ hh]
    unfold TripCalculator.detectedChargingKwh at *
    ring
  · intro hge
    simp only [if_neg hge]
    unfold TripCalculator.detectedChargingKwh
    rfl

def c4D1 : TessieDrive :=
  { id := 1, started_at := 0, ended_at := 3600, starting_location := "A",
    ending_location := "B", starting_battery := 100, ending_battery := 40,
    odometer_distance := 150, average_speed := 50, max_speed := 70 }

def c4D2 : TessieDrive :=
  { id := 2, started_at := 10800, ended_at := 14400, starting_location := "B",
    ending_location := "C", starting_battery := 90, ending_battery := 50,
    odometer_distance := 100, average_speed := 50, max_speed := 70 }

lemma c4_gap_costs :
    TripCalculator.chargingGapCosts [c4D1, c4D2] (13/100) (28/100) =
      (39/8, 0) := by
  show TripCalculator.chargingGapCosts [c4D1, c4D2] (13/100) (28/100) = (39/8, 0)
  unfold TripCalculator.chargingGapCosts
  norm_num [c4D1, c4D2]

lemma c4_detected :
    TripCalculator.detectedChargingKwh [c4D1, c4D2] (13/100) (28/100) = 75/2 := by
  unfold TripCalculator.detectedChargingKwh
  rw [c4_gap_costs]
  norm_num

lemma c4_total_battery :
    TripCalculator.calculateTotalBatteryUsed [c4D1, c4D2] = 100 := by
  unfold TripCalculator.calculateTotalBatteryUsed
  norm_num [c4D1, c4D2]

/-- Counterexample to C4 as stated: on this two-drive trip the detected
charging energy (37.5 kWh) is below the total energy consumed (75 kWh), yet
no unaccounted energy is assigned — the home and supercharger buckets sum to
37.5 kWh, not 75 kWh (the top-up requires `detected < 0.5 × total`, and here
`detected = 0.5 × total` exactly). -/
theorem tripChargingCosts_unaccounted_cex :
    TripCalculator.calculateTotalBatteryUsed (sortDrives [c4D1, c4D2]) / 100 * 75 = 75 ∧
    TripCalculator.detectedChargingKwh [c4D1, c4D2] (13/100) (28/100) = 75/2 ∧
    (75/2 : ℚ) < 75 ∧
    (TripCalculator.tripChargingCosts [c4D1, c4D2] (13/100) (28/100)).electricityCost /
        (13/100) +
      (TripCalculator.tripChargingCosts [c4D1, c4D2] (13/100) (28/100)).chargingStopsCost /
        (28/100) = 75/2 ∧
    (75/2 : ℚ) ≠ 75 := by
  have hsort : sortDrives [c4D1, c4D2] = [c4D1, c4D2] :=
    sortDrives_pair c4D1 c4D2 (by decide)
  have htot : TripCalculator.calculateTotalBatteryUsed (sortDrives [c4D1, c4D2]) / 100 * 75 = 75 := by
    rw [hsort, c4_total_battery]
    norm_num
  refine ⟨htot, c4_detected, by norm_num, ?_, by norm_num⟩
  have heval : TripCalculator.tripChargingCosts [c4D1, c4D2] (13/100) (28/100) =
      TripCalculator.estimateChargingCosts [c4D1, c4D2] 75 (13/100) (28/100) := by
    unfold TripCalculator.tripChargingCosts
    rw [hsort]
    show TripCalculator.estimateChargingCosts [c4D1, c4D2]
      (TripCalculator.calculateTotalBatteryUsed [c4D1, c4D2] / 100 * 75) (13/100) (28/100) = _
    rw [c4_total_battery]
    norm_num
  rw [heval]
  have := (estimateChargingCosts_topup [c4D1, c4D2] 75 (13/100) (28/100)
    (by norm_num) (by norm_num)).2
  rw [this (by rw [c4_detected]; norm_num), c4_detected]

-- ### C3 and C10: commute clustering

lemma sortDrives_nil (drives : List TessieDrive) (h : sortDrives drives = []) :
    drives = [] := by
  have hlen := (sortDrives_perm drives).length_eq
  rw [h] at hlen
  exact List.length_eq_zero.1 hlen.symm

lemma headD_mem_of_ne_nil {α : Type} (l : List α) (d : α) (h : l ≠ []) :
    l.headD d ∈ l := by
  cases l with
  | nil => exact absurd rfl h
  | cons a t => simp

lemma calculateWeeklyFrequency_nonneg (drives : List TessieDrive) :
    0 ≤ CommuteAnalyzer.calculateWeeklyFrequency drives := by
  unfold CommuteAnalyzer.calculateWeeklyFrequency
  by_cases hz : drives.length = 0
  · rw [if_pos hz]
  · rw [if_neg hz]
    rcases hs : sortDrives drives with _ | ⟨a, l⟩
    · exact absurd (by rw [sortDrives_nil drives hs]; rfl) hz
    · have hsorted : ((a :: l) : List TessieDrive).Pairwise driveLE := by
        rw [← hs]; exact sortDrives_sorted drives
      have hle : a.started_at ≤ ((a :: l).getLastD defaultDrive).started_at :=
        sorted_head_le_getLast a l hsorted
      simp only [hs, List.headD_cons]
      by_cases hspan :
          ((((a :: l).getLastD defaultDrive).started_at - a.started_at : ℤ) : ℚ) /
            (7 * 24 * 3600) = 0
      · rw [if_pos hspan]
        exact Nat.cast_nonneg _
      · rw [if_neg hspan]
        apply round2_nonneg
        apply div_nonneg (Nat.cast_nonneg _)
        apply div_nonneg _ (by norm_num)
        have : (0 : ℤ) ≤ ((a :: l).getLastD defaultDrive).started_at - a.started_at := by
          omega
        exact_mod_cast this

lemma weeklyFrequency_all_same_time (t : ℤ) (drives : List TessieDrive)
    (hne : drives ≠ []) (hall : ∀ d ∈ drives, d.started_at = t) :
    CommuteAnalyzer.calculateWeeklyFrequency drives = (drives.length : ℚ) := by
  unfold CommuteAnalyzer.calculateWeeklyFrequency
  rw [if_neg (fun hc => hne (List.length_eq_zero.1 hc))]
  rcases hs : sortDrives drives with _ | ⟨a, l⟩
  · exact absurd (sortDrives_nil drives hs) hne
  · have hmem : ∀ x ∈ (a :: l : List TessieDrive), x ∈ drives := by
      intro x hx
      rw [← hs] at hx
      exact (sortDrives_perm drives).mem_iff.1 hx
    have ha : a.started_at = t := hall a (hmem a (List.mem_cons_self a l))
    have hb : ((a :: l).getLastD defaultDrive).started_at = t :=
      hall _ (hmem _ (getLastD_mem_of_ne_nil (a :: l) defaultDrive (List.cons_ne_nil a l)))
    simp only [hs, List.headD_cons]
    rw [hb, ha]
    simp [sub_self]

/-- C10: a route whose member drives all share one `started_at` reports its
weekly frequency as the member count (the zero-week span is not divided by);
each retained route's `frequency` field is `calculateWeeklyFrequency` of its
member drives; and every route reported by `analyzeCommutes` has a
non-negative (and, as a rational, finite) frequency. -/
theorem calculateWeeklyFrequency_props :
    (∀ (t : ℤ) (drives : List TessieDrive), drives ≠ [] →
      (∀ d ∈ drives, d.started_at = t) →
      CommuteAnalyzer.calculateWeeklyFrequency drives = (drives.length : ℚ)) ∧
    (∀ g : String × List TessieDrive,
      (CommuteAnalyzer.analyzeRoute g).frequency =
        CommuteAnalyzer.calculateWeeklyFrequency g.2) ∧
    (∀ (drives : List TessieDrive) (r : CommuteAnalyzer.CommuteRoute),
      r ∈ (CommuteAnalyzer.analyzeCommutes drives).routes → 0 ≤ r.frequency) := by
  refine ⟨weeklyFrequency_all_same_time, fun g => rfl, ?_⟩
  · intro drives r hr
    unfold CommuteAnalyzer.analyzeCommutes at hr
    by_cases h : drives.length < 10
    · rw [if_pos h] at hr
      exact absurd hr (List.not_mem_nil r)
    · rw [if_neg h] at hr
      simp only [List.mem_map] at hr
      obtain ⟨g, _, hg⟩ := hr
      rw [← hg]
      show (0 : ℚ) ≤ (CommuteAnalyzer.analyzeRoute g).frequency
      have : (CommuteAnalyzer.analyzeRoute g).frequency =
          CommuteAnalyzer.calculateWeeklyFrequency g.2 := rfl
      rw [this]
      exact calculateWeeklyFrequency_nonneg g.2

def c3A1 : TessieDrive :=
  { id := 1, started_at := 1000, ended_at := 1600, starting_location := "A",
    ending_location := "B", starting_battery := 80, ending_battery := 76,
    odometer_distance := 10, average_speed := 30, max_speed := 40 }

def c3A2 : TessieDrive :=
  { id := 2, started_at := 1000, ended_at := 1600, starting_location := "B",
    ending_location := "A", starting_battery := 76, ending_battery := 72,
    odometer_distance := 10, average_speed := 30, max_speed := 40 }

def c3A3 : TessieDrive :=
  { id := 3, started_at := 1000, ended_at := 1600, starting_location := "A",
    ending_location := "B", starting_battery := 72, ending_battery := 68,
    odometer_distance := 10, average_speed := 30, max_speed := 40 }

/-- One-off filler drive `n` on its own unique route. -/
def c3F (n : ℕ) : TessieDrive :=
  { id := 10 + n, started_at := 2000 + (n : ℤ), ended_at := 2600 + (n : ℤ),
    starting_location := ("C") ++ toString n, ending_location := ("D") ++ toString n,
    starting_battery := 60, ending_battery := 58, odometer_distance := 5,
    average_speed := 30, max_speed := 40 }

/-- Three drives between A and B (both directions) plus 7 one-off fillers. -/
def c3Demo10 : List TessieDrive :=
  [c3A1, c3A2, c3A3, c3F 1, c3F 2, c3F 3, c3F 4, c3F 5, c3F 6, c3F 7]

/-- Two drives between A and B plus 8 one-off fillers. -/
def c3Demo2 : List TessieDrive :=
  [c3A1, c3A2, c3F 1, c3F 2, c3F 3, c3F 4, c3F 5, c3F 6, c3F 7, c3F 8]

/-- Counterexample to C3 as stated: feeding exactly the 3 round-trip drives
(A→B, B→A, A→B) yields zero retained routes, not one — `analyzeCommutes`
returns the empty analysis below its 10-drive minimum; moreover the
normalization keeps the third- and second-from-last comma segments (dropping
the final one), not the last two as claimed. -/
theorem analyzeCommutes_three_drives_cex :
    (CommuteAnalyzer.analyzeCommutes [c3A1, c3A2, c3A3]).routes_detected = 0 ∧
    (CommuteAnalyzer.analyzeCommutes [c3A1, c3A2, c3A3]).routes = [] ∧
    CommuteAnalyzer.generateRouteId ("1 Elm St, Springfield, IL")
        ("2 Oak St, Portland, OR") = ("1 Elm St, Springfield ↔ 2 Oak St, Portland") ∧
    ("1 Elm St, Springfield ↔ 2 Oak St, Portland") ≠ ("Portland, OR ↔ Springfield, IL") := by
  refine ⟨by decide, by decide, by decide, by decide⟩

lemma c3_routes_eval : (CommuteAnalyzer.analyzeCommutes c3Demo10).routes =
    [CommuteAnalyzer.analyzeRoute (("A ↔ B"), [c3A1, c3A2, c3A3])] := rfl

lemma c3_freq : CommuteAnalyzer.calculateWeeklyFrequency [c3A1, c3A2, c3A3] = 3 := by
  rw [weeklyFrequency_all_same_time 1000 [c3A1, c3A2, c3A3] (by decide) (by decide)]
  rfl

/-- C3 (amended): `analyzeCommutes` requires at least 10 drives (fewer yield
the empty analysis with zero routes); the route key is direction-independent,
built from the sorted pair of normalized endpoints where normalization keeps
the third- and second-from-last comma segments of a label with at least 3
segments (shorter labels stay unchanged); groups with at least 3 member
drives are retained.  Hence 3 drives between A and B (A→B, B→A, A→B) among
10 total (7 fillers on one-off routes) yield exactly one retained Route,
with `frequency` 3 here because the three drives share a start time, while
2 such drives among 10 yield zero retained routes. -/
theorem analyzeCommutes_retention :
    (∀ drives : List TessieDrive, drives.length < 10 →
      (CommuteAnalyzer.analyzeCommutes drives).routes = [] ∧
      (CommuteAnalyzer.analyzeCommutes drives).routes_detected = 0) ∧
    (CommuteAnalyzer.analyzeCommutes c3Demo10).routes_detected = 1 ∧
    ((CommuteAnalyzer.analyzeCommutes c3Demo10).routes.map (·.id)) = [("A ↔ B")] ∧
    ((CommuteAnalyzer.analyzeCommutes c3Demo10).routes.map (·.frequency)) = [3] ∧
    (CommuteAnalyzer.analyzeCommutes c3Demo2).routes_detected = 0 := by
  refine ⟨?_, by decide, by decide, ?_, by decide⟩
  · intro drives h
    unfold CommuteAnalyzer.analyzeCommutes
    rw [if_pos h]
    exact ⟨rfl, rfl⟩
  · rw [c3_routes_eval, List.map_cons, List.map_nil]
    have : (CommuteAnalyzer.analyzeRoute (("A ↔ B"), [c3A1, c3A2, c3A3])).frequency =
        CommuteAnalyzer.calculateWeeklyFrequency [c3A1, c3A2, c3A3] := rfl
    rw [this, c3_freq]

/-- Witness for C3's general below-minimum conjunct at a concrete input. -/
theorem analyzeCommutes_retention_witness :
    ([c3A1].length < 10) ∧
    ((CommuteAnalyzer.analyzeCommutes [c3A1]).routes = [] ∧
      (CommuteAnalyzer.analyzeCommutes [c3A1]).routes_detected = 0) :=
  ⟨by decide, analyzeCommutes_retention.1 [c3A1] (by decide)⟩

def c10R1 : TessieDrive :=
  { id := 21, started_at := 500, ended_at := 1100, starting_location := "P",
    ending_location := "Q", starting_battery := 90, ending_battery := 86,
    odometer_distance := 12, average_speed := 30, max_speed := 40 }

def c10R2 : TessieDrive :=
  { id := 22, started_at := 500, ended_at := 1100, starting_location := "Q",
    ending_location := "P", starting_battery := 86, ending_battery := 82,
    odometer_distance := 12, average_speed := 30, max_speed := 40 }

def c10R3 : TessieDrive :=
  { id := 23, started_at := 500, ended_at := 1100, starting_location := "P",
    ending_location := "Q", starting_battery := 82, ending_battery := 78,
    odometer_distance := 12, average_speed := 30, max_speed := 40 }

/-- One-off filler drive for the C10 demo. -/
def c10X (n : ℕ) : TessieDrive :=
  { id := 30 + n, started_at := 3000 + (n : ℤ), ended_at := 3600 + (n : ℤ),
    starting_location := ("U") ++ toString n, ending_location := ("V") ++ toString n,
    starting_battery := 60, ending_battery := 58, odometer_distance := 5,
    average_speed := 30, max_speed := 40 }

def c10Demo : List TessieDrive :=
  [c10R1, c10R2, c10R3, c10X 1, c10X 2, c10X 3, c10X 4, c10X 5, c10X 6, c10X 7]

/-- Witness for C10: a same-start-time route reports frequency 3, and the
retained route produced by `analyzeCommutes` on the demo has a non-negative
frequency. -/
theorem calculateWeeklyFrequency_props_witness :
    ([c10R1, c10R2, c10R3] ≠ ([] : List TessieDrive)) ∧
    (∀ d ∈ [c10R1, c10R2, c10R3], d.started_at = 500) ∧
    CommuteAnalyzer.calculateWeeklyFrequency [c10R1, c10R2, c10R3] = 3 ∧
    CommuteAnalyzer.analyzeRoute (("P ↔ Q"), [c10R1, c10R2, c10R3]) ∈
      (CommuteAnalyzer.analyzeCommutes c10Demo).routes ∧
    0 ≤ (CommuteAnalyzer.analyzeRoute (("P ↔ Q"), [c10R1, c10R2, c10R3])).frequency := by
  have hroutes : (CommuteAnalyzer.analyzeCommutes c10Demo).routes =
      [CommuteAnalyzer.analyzeRoute (("P ↔ Q"), [c10R1, c10R2, c10R3])] := rfl
  have hmem : CommuteAnalyzer.analyzeRoute (("P ↔ Q"), [c10R1, c10R2, c10R3]) ∈
      (CommuteAnalyzer.analyzeCommutes c10Demo).routes := by
    rw [hroutes]
    exact List.mem_cons_self _ _
  refine ⟨by decide, by decide, ?_, hmem,
    calculateWeeklyFrequency_props.2.2 c10Demo _ hmem⟩
  rw [calculateWeeklyFrequency_props.1 500 [c10R1, c10R2, c10R3] (by decide) (by decide)]
  norm_num

/-- Witness for C4: with no gaps detected (empty drive list) and 10 kWh of
total energy, the top-up branch fires and the buckets cover the total. -/
theorem estimateChargingCosts_topup_witness :
    ((13/100 : ℚ) ≠ 0) ∧ ((28/100 : ℚ) ≠ 0) ∧
    TripCalculator.detectedChargingKwh [] (13/100) (28/100) < 10 * (1/2) ∧
    (TripCalculator.estimateChargingCosts [] 10 (13/100) (28/100)).electricityCost /
        (13/100) +
      (TripCalculator.estimateChargingCosts [] 10 (13/100) (28/100)).chargingStopsCost /
        (28/100) = 10 := by
  have hdet : TripCalculator.detectedChargingKwh [] (13/100) (28/100) = 0 := by
    unfold TripCalculator.detectedChargingKwh TripCalculator.chargingGapCosts
    norm_num
  exact ⟨by norm_num, by norm_num, by rw [hdet]; norm_num,
    (estimateChargingCosts_topup [] 10 (13/100) (28/100) (by norm_num)
      (by norm_num)).1 (by rw [hdet]; norm_num)⟩
